import Mathlib

/-!
Verification of the queue / campaign dispatch pipeline implemented in
`backend/src/queues.ts`.

The TypeScript module is embedded shallowly: every handler becomes a pure
Lean function from an explicit database/queue state (`World`) and the
results of its external collaborators (WhatsApp sessions, ticket service,
random draws) to a new state plus a flag saying whether the handler threw.
Timestamps are integers (milliseconds); `moment()` values are passed in as
a `now` argument.  `Math.random()`-based draws are passed in as explicit
natural numbers (the value of `Math.floor(Math.random() * max)`).
-/

/-- Campaign status values used by `queues.ts`. -/
inductive CampaignStatus
  | PROGRAMADA
  | EM_ANDAMENTO
  | FINALIZADA
  | FINALIZADA_COM_ERROS
deriving DecidableEq

/-- Schedule status values used by `queues.ts`. -/
inductive ScheduleStatus
  | PENDENTE
  | AGENDADA
  | ENVIADA
  | ERRO
deriving DecidableEq

/-- A `ContactListItem` row (the fields selected by `getCampaign`). -/
structure ContactListItem where
  id : Nat
  name : String
  number : String
  email : String
  isWhatsappValid : Bool
deriving DecidableEq

/-- A `Campaign` row together with the contact list included by
`getCampaign`.  `contacts` holds the raw contact-list items; `getCampaign`
filters them by `isWhatsappValid` (the `where` clause of the include). -/
structure Campaign where
  id : Nat
  companyId : Nat
  confirmation : Bool
  message1 : Option String
  message2 : Option String
  message3 : Option String
  message4 : Option String
  message5 : Option String
  confirmationMessage1 : Option String
  confirmationMessage2 : Option String
  confirmationMessage3 : Option String
  confirmationMessage4 : Option String
  confirmationMessage5 : Option String
  mediaPath : Option String
  mediaName : Option String
  status : CampaignStatus
  scheduledAt : Int
  completedAt : Option Int
  contacts : List ContactListItem
deriving DecidableEq

/-- A `CampaignShipping` row.  `confirmation` is the column read by
`handleDispatchCampaign` (line `campaign.confirmation &&
campaignShipping.confirmation === null`); it is distinct from
`confirmationRequestedAt` and is never written inside `queues.ts`. -/
structure CampaignShipping where
  id : Nat
  campaignId : Nat
  contactId : Nat
  number : String
  message : Option String
  confirmationMessage : Option String
  confirmation : Option Bool
  confirmationRequestedAt : Option Int
  deliveredAt : Option Int
  jobId : Option Nat
deriving DecidableEq

/-- Jobs that `queues.ts` adds to the `campaignQueue`. -/
inductive CampaignJob
  | processCampaign (id : Nat) (delay : Int) (removeOnComplete : Bool)
  | prepareContact (contactListItemId campaignId : Nat) (delay : Int) (removeOnComplete : Bool)
  | dispatchCampaign (campaignId campaignShippingId contactId : Nat) (delay : Int)
deriving DecidableEq

/-- Messages handed to `wbot.sendMessage`.  A `text` send carries the body
taken from the shipping record (which can be absent, mirroring a `null`
column). -/
inductive SentMessage
  | media (chatId : String) (mediaName : Option String)
  | text (chatId : String) (body : Option String)
deriving DecidableEq

/-- An `io.emit("company-…-campaign", { action: "update", record })` event. -/
structure CampaignEvent where
  companyId : Nat
  record : Campaign
deriving DecidableEq

/-- Calls made to the ticket service by `handleDispatchCampaign`. -/
inductive TicketAction
  | openedOrFound (contactId : Nat)
  | closed (contactId : Nat)
deriving DecidableEq

/-- The shared database / queue state visible to the campaign handlers. -/
structure World where
  campaigns : List Campaign
  shippings : List CampaignShipping
  contactItems : List ContactListItem
  jobs : List (Nat × CampaignJob)
  sent : List SentMessage
  events : List CampaignEvent
  tickets : List TicketAction
  nextJobId : Nat
  nextShippingId : Nat
deriving DecidableEq

/-- Pacing settings (`CampaignDelay` in the source). -/
structure CampaignDelay where
  randomMessageInterval : Nat
  longerIntervalAfter : Nat
  greaterInterval : Nat
  fixedMessageInterval : Nat
deriving DecidableEq

/-- `campaignDelayDefaults` from the source. -/
def campaignDelayDefaults : CampaignDelay :=
  { randomMessageInterval := 20
    longerIntervalAfter := 20
    greaterInterval := 60
    fixedMessageInterval := 0 }

/-- `parseToMilliseconds(seconds)` = `seconds * 1000`. -/
def parseToMilliseconds (seconds : Int) : Int := seconds * 1000

/-- `randomValue(min, max)` = `Math.floor(Math.random() * max) + min`.
The `draw` argument stands for the runtime value of
`Math.floor(Math.random() * max)`, an arbitrary natural number in
`[0, max)`; theorems that need the range carry `draw < max` as a
hypothesis. -/
def randomValue (min _max draw : Nat) : Nat := draw + min

/-- `delay || 0` from the `PrepareContact` enqueue: JavaScript `||` maps a
falsy (zero) number to `0`, which on integers is the identity. -/
def jsOrZero (d : Int) : Int := if d = 0 then 0 else d

/-- One advance of the `delay` loop variable in `handleProcessCampaign`,
taken after the `index++` for the 1-based recipient index `i`:
`index % settings.longerIntervalAfter === 0` adds
`parseToMilliseconds(settings.greaterInterval || 60)`, otherwise
`settings.fixedMessageInterval ? … : randomValue(0, settings.randomMessageInterval || 20)`
seconds are added. -/
def codeAdvanceMs (s : CampaignDelay) (draw : Nat) (i : Nat) : Int :=
  if i % s.longerIntervalAfter = 0 then
    parseToMilliseconds (Int.ofNat (if s.greaterInterval = 0 then 60 else s.greaterInterval))
  else if s.fixedMessageInterval ≠ 0 then
    parseToMilliseconds (Int.ofNat s.fixedMessageInterval)
  else
    parseToMilliseconds
      (Int.ofNat (randomValue 0 (if s.randomMessageInterval = 0 then 20 else s.randomMessageInterval) (draw)))

/-- The value of the `delay` loop variable after the advances for the
recipients at 1-based indices `k+1, …, k+n`, starting from value `d`. -/
def delayAfterFrom (s : CampaignDelay) (draws : Nat → Nat) : Nat → Int → Nat → Int
  | _, d, 0 => d
  | k, d, n + 1 => delayAfterFrom s draws (k + 1) (d + codeAdvanceMs s (draws (k + 1)) (k + 1)) n

/-- The value of the `delay` loop variable after the first `n` advances;
recipient number `n+1` (1-based) is enqueued with this delay. -/
def delayAfterN (s : CampaignDelay) (draws : Nat → Nat) (d0 : Int) (n : Nat) : Int :=
  delayAfterFrom s draws 0 d0 n

/-- The delay carried by the `PrepareContact` job of the recipient at
1-based index `i` (the loop variable before the advance for index `i`). -/
def delayAssignedTo (s : CampaignDelay) (draws : Nat → Nat) (d0 : Int) (i : Nat) : Int :=
  delayAfterN s draws d0 (i - 1)

/-- The fan-out loop of `handleProcessCampaign`: for each contact enqueue a
`PrepareContact` job carrying `delay || 0` with `removeOnComplete`, then
`index++` and advance `delay`. -/
def prepareJobsLoop (cid : Nat) (s : CampaignDelay) (draws : Nat → Nat) :
    List ContactListItem → Nat → Int → List CampaignJob
  | [], _, _ => []
  | c :: rest, index, delay =>
      CampaignJob.prepareContact c.id cid (jsOrZero delay) true ::
        prepareJobsLoop cid s draws rest (index + 1)
          (delay + codeAdvanceMs s (draws (index + 1)) (index + 1))

/-- The delay-advance rule exactly as the specification sentence for the
orchestrator states it (claim C4): add `greaterInterval` seconds when the
1-based index is a multiple of `longerIntervalAfter`; otherwise add
`fixedMessageInterval` seconds when that is nonzero; otherwise add a random
integer number of seconds drawn from `[0, randomMessageInterval)`.  Written
from the specification wording only, to be compared with `codeAdvanceMs`. -/
def specAdvanceMs (s : CampaignDelay) (draw : Nat) (i : Nat) : Int :=
  if i % s.longerIntervalAfter = 0 then
    parseToMilliseconds (Int.ofNat s.greaterInterval)
  else if s.fixedMessageInterval ≠ 0 then
    parseToMilliseconds (Int.ofNat s.fixedMessageInterval)
  else
    parseToMilliseconds (Int.ofNat draw)

/-- The pacing settings named by claim C3. -/
def pacing20 : CampaignDelay :=
  { randomMessageInterval := 20
    longerIntervalAfter := 20
    greaterInterval := 60
    fixedMessageInterval := 0 }

/-- Pacing settings with `greaterInterval = 0` (reachable: `getSettings`
parses arbitrary numbers from the `Settings` table). -/
def pacingGreaterZero : CampaignDelay :=
  { randomMessageInterval := 20
    longerIntervalAfter := 1
    greaterInterval := 0
    fixedMessageInterval := 0 }

/-- An all-zero random stream (every draw of `Math.floor(Math.random()*max)`
came out `0`). -/
def zeroDraws : Nat → Nat := fun _ => 0

/-- A constant random stream drawing `3` every time. -/
def threeDraws : Nat → Nat := fun _ => 3

/-- A `Schedule` row together with the contact snapshot included by the
verifier query (`include: [{ model: Contact, as: "contact" }]`). -/
structure ScheduleRec where
  id : Nat
  companyId : Nat
  contactName : String
  contactNumber : String
  body : String
  sendAt : Int
  sentAt : Option Int
  status : ScheduleStatus
deriving DecidableEq

/-- A job added to a Bull queue by the schedule verifier. -/
structure SchedJob where
  queue : String
  jobType : String
  scheduleId : Nat
  delay : Int
deriving DecidableEq

/-- Queue name of `sendScheduledMessages` (typo preserved from the source). -/
def schedSendQueueName : String := "SendSacheduledMessages"

/-- The `where` clause of `handleVerifySchedules`: status `PENDENTE`,
`sentAt` null, `sendAt` between `moment()` and `moment().add(30, "seconds")`. -/
def scheduleDue (now : Int) (s : ScheduleRec) : Bool :=
  decide (s.status = ScheduleStatus.PENDENTE) && decide (s.sentAt = none) &&
    decide (now ≤ s.sendAt) && decide (s.sendAt ≤ now + 30000)

/-- The `SendMessage` job added for one selected schedule:
`sendScheduledMessages.add("SendMessage", { schedule }, { delay: 40000 })`. -/
def mkSchedJob (sid : Nat) : SchedJob :=
  { queue := schedSendQueueName, jobType := "SendMessage", scheduleId := sid, delay := 40000 }

/-- The body of `handleVerifySchedules`: the selected rows are flipped to
`AGENDADA` and, for each, one `SendMessage` job with `delay: 40000` is added
to `sendScheduledMessages`; non-matching rows are untouched. -/
def verifySchedulesLoop (now : Int) : List ScheduleRec → List ScheduleRec × List SchedJob
  | [] => ([], [])
  | s :: rest =>
      let r := verifySchedulesLoop now rest
      if scheduleDue now s then
        ({ s with status := ScheduleStatus.AGENDADA } :: r.1, mkSchedJob s.id :: r.2)
      else (s :: r.1, r.2)

/-- One tick of the schedule verifier over the `Schedules` table. -/
def handleVerifySchedules (db : List ScheduleRec) (now : Int) :
    List ScheduleRec × List SchedJob :=
  verifySchedulesLoop now db

/-- Result of the defensive `Schedule.findByPk` re-fetch in
`handleSendScheduledMessage`: the query may throw (caught and logged),
return `null`, or return a row. -/
inductive RefetchResult
  | threw
  | missing
  | found (r : ScheduleRec)
deriving DecidableEq

/-- The `scheduleRecord` local variable after the guarded re-fetch. -/
def refetchRecord : RefetchResult → Option ScheduleRec
  | RefetchResult.threw => none
  | RefetchResult.missing => none
  | RefetchResult.found r => some r

/-- The `schedule` object embedded in the job payload. -/
structure SchedulePayload where
  id : Nat
  companyId : Nat
  contactName : String
  contactNumber : String
  body : String
deriving DecidableEq

/-- Observable outcome of one `handleSendScheduledMessage` run: the
`{number, body}` handed to `SendMessage` (if the call was reached), the
`scheduleRecord?.update(…)` that was performed (row id, new status, and the
`sentAt` value written, if any), and whether the handler re-raised. -/
structure SchedOutcome where
  sentTo : Option (String × String)
  update : Option (Nat × ScheduleStatus × Option Int)
  raised : Bool
deriving DecidableEq

/-- `handleSendScheduledMessage`: re-fetch guarded by its own try/catch,
then resolve the default WhatsApp (`whatsappOk`), send using the payload
snapshot (`sendOk`), and update `scheduleRecord` via optional chaining; on
any failure in the main try the record - when present - is set to `ERRO`
and the error is re-thrown. -/
def handleSendScheduledMessage (payload : SchedulePayload) (refetch : RefetchResult)
    (whatsappOk sendOk : Bool) (now : Int) : SchedOutcome :=
  let scheduleRecord := refetchRecord refetch
  if whatsappOk = false then
    { sentTo := none
      update := scheduleRecord.map (fun r => (r.id, ScheduleStatus.ERRO, (none : Option Int)))
      raised := true }
  else if sendOk = false then
    { sentTo := some (payload.contactNumber, payload.body)
      update := scheduleRecord.map (fun r => (r.id, ScheduleStatus.ERRO, (none : Option Int)))
      raised := true }
  else
    { sentTo := some (payload.contactNumber, payload.body)
      update := scheduleRecord.map (fun r => (r.id, ScheduleStatus.ENVIADA, some now))
      raised := false }

/-- A row of the raw SQL query in `handleVerifyCampaigns`. -/
structure DueCampaignRow where
  id : Nat
  scheduledAt : Int
deriving DecidableEq

/-- The SQL filter: `"scheduledAt" between now() and now() + '1 hour'` and
status `PROGRAMADA` (status is part of the query; the rows modelled here
are the `PROGRAMADA` ones). -/
def campaignDue (now : Int) (c : DueCampaignRow) : Bool :=
  decide (now ≤ c.scheduledAt) && decide (c.scheduledAt ≤ now + 3600000)

/-- The `for` loop of `handleVerifyCampaigns`: for each selected campaign,
`delay = scheduledAt.diff(now, "milliseconds")` and one `ProcessCampaign`
job `{id, delay}` with `removeOnComplete: true` is added. -/
def verifyCampaignsLoop (now : Int) : List DueCampaignRow → List CampaignJob
  | [] => []
  | c :: rest =>
      CampaignJob.processCampaign c.id (c.scheduledAt - now) true :: verifyCampaignsLoop now rest

/-- One tick of the campaign verifier over the `Campaigns` table. -/
def handleVerifyCampaigns (db : List DueCampaignRow) (now : Int) : List CampaignJob :=
  verifyCampaignsLoop now (db.filter (campaignDue now))

/-- Replace every occurrence of `pat` inside a character list, scanning left
to right and not re-scanning replacements (the semantics of
`String.prototype.replace` with a `/…/g` literal pattern).  `fuel` bounds
the recursion by the length of the scanned list. -/
def replaceFrom (pat rep : List Char) : Nat → List Char → List Char
  | 0, l => l
  | _ + 1, [] => []
  | fuel + 1, c :: rest =>
      if pat ≠ [] ∧ pat.isPrefixOf (c :: rest) then
        rep ++ replaceFrom pat rep fuel (List.drop (pat.length - 1) rest)
      else
        c :: replaceFrom pat rep fuel rest

/-- `s.replace(/pat/g, rep)` for a literal pattern. -/
def jsReplaceAll (s pat rep : String) : String :=
  String.mk (replaceFrom pat.toList rep.toList s.toList.length s.toList)

/-- The contact object returned by `verifyContact` (resolved live identity). -/
structure VerifiedContact where
  id : Nat
  name : String
  number : String
  email : String
deriving DecidableEq

/-- `getProcessedMessage`: substitute the placeholders with the contact's
name, email and number, in that order (the `includes` guards in the source
are no-ops, since replacing an absent pattern changes nothing). -/
def getProcessedMessage (msg : String) (contact : VerifiedContact) : String :=
  jsReplaceAll (jsReplaceAll (jsReplaceAll msg "\x7bnome\x7d" contact.name)
    "\x7bemail\x7d" contact.email) "\x7bnumero\x7d" contact.number

/-- One step of `getCampaignValidMessages`: keep a message that is neither
nil nor empty. -/
def validMsg (m : Option String) : List String :=
  match m with
  | some s => if s = "" then [] else [s]
  | none => []

/-- `getCampaignValidMessages`. -/
def getCampaignValidMessages (c : Campaign) : List String :=
  validMsg c.message1 ++ validMsg c.message2 ++ validMsg c.message3 ++
    validMsg c.message4 ++ validMsg c.message5

/-- `getCampaignValidConfirmationMessages`. -/
def getCampaignValidConfirmationMessages (c : Campaign) : List String :=
  validMsg c.confirmationMessage1 ++ validMsg c.confirmationMessage2 ++
    validMsg c.confirmationMessage3 ++ validMsg c.confirmationMessage4 ++
    validMsg c.confirmationMessage5

/-- `getCampaign`: find the campaign by primary key; the included contact
list is filtered to `isWhatsappValid` items by the include's `where`. -/
def getCampaign (w : World) (id : Nat) : Option Campaign :=
  (w.campaigns.find? (fun c => c.id == id)).map
    (fun c => { c with contacts := c.contacts.filter (fun it => it.isWhatsappValid) })

/-- `campaign.update({status, completedAt})` applied to one row. -/
def setStatus (st : CampaignStatus) (ca : Option Int) (c : Campaign) : Campaign :=
  { c with status := st, completedAt := ca }

/-- Write through a loaded campaign object: update the row(s) with its id. -/
def updateCampaignRow (w : World) (cid : Nat) (f : Campaign → Campaign) : World :=
  { w with campaigns := w.campaigns.map (fun c => if c.id == cid then f c else c) }

/-- Write through a loaded shipping record: update the row(s) with its id. -/
def updateShippingRow (w : World) (sid : Nat) (f : CampaignShipping → CampaignShipping) : World :=
  { w with shippings := w.shippings.map (fun s => if s.id == sid then f s else s) }

/-- `CampaignShipping.count({where: {campaignId, deliveredAt: {not: null}}})`. -/
def deliveredCount (w : World) (cid : Nat) : Nat :=
  (w.shippings.filter (fun s => s.campaignId == cid && s.deliveredAt.isSome)).length

/-- `verifyAndFinalizeCampaign`: compare the included contact count with the
delivered-shipping count; on equality update the campaign to `FINALIZADA`
with `completedAt: moment()`; in every case emit one socket event carrying
the (possibly just updated) in-memory campaign object, which is also
returned for callers that reuse it. -/
def verifyAndFinalizeCampaign (w : World) (campaign : Campaign) (now : Int) :
    World × Campaign :=
  let fin := campaign.contacts.length == deliveredCount w campaign.id
  let record := if fin then setStatus CampaignStatus.FINALIZADA (some now) campaign else campaign
  let w1 := if fin then
      updateCampaignRow w campaign.id (setStatus CampaignStatus.FINALIZADA (some now))
    else w
  ({ w1 with events := w1.events ++ [{ companyId := campaign.companyId, record := record }] },
    record)

/-- External inputs of one `handlePrepareContact` run: whether
`GetWhatsappWbot` succeeded, the result of `verifyContact` (`none` models a
thrown error), and the two `Math.random()` draws used to pick a message and
a confirmation message variant. -/
structure PrepareExt where
  wbotOk : Bool
  verified : Option VerifiedContact
  msgDraw : Nat
  confDraw : Nat
deriving DecidableEq

/-- The `campaignShipping` payload object assembled by `handlePrepareContact`
before the `findOrCreate`.  `message`/`confirmationMessage` are `none` when
the corresponding key was never assigned on the JS object. -/
structure ShippingPayload where
  number : String
  contactId : Nat
  campaignId : Nat
  message : Option String
  confirmationMessage : Option String
deriving DecidableEq

/-- First stage of the payload assembly (`if (messages.length) { … }`):
pick a random valid message variant, render it, and prefix the zero-width
marker.  Returns `none` when the draw falls outside the variant list
(indexing `undefined` would make the render throw). -/
def buildMessagePart (campaign : Campaign) (contact : VerifiedContact)
    (base : ShippingPayload) (msgDraw : Nat) : Option ShippingPayload :=
  if (getCampaignValidMessages campaign).length ≠ 0 then
    match (getCampaignValidMessages campaign).get?
        (randomValue 0 (getCampaignValidMessages campaign).length msgDraw) with
    | none => none
    | some m => some { base with message := some ("\u200C" ++ getProcessedMessage m contact) }
  else some base

/-- Second stage of the payload assembly (`if (campaign.confirmation) { … }`):
independently pick and render a confirmation variant. -/
def buildConfirmationPart (campaign : Campaign) (contact : VerifiedContact)
    (p : ShippingPayload) (confDraw : Nat) : Option ShippingPayload :=
  if campaign.confirmation then
    if (getCampaignValidConfirmationMessages campaign).length ≠ 0 then
      match (getCampaignValidConfirmationMessages campaign).get?
          (randomValue 0 (getCampaignValidConfirmationMessages campaign).length confDraw) with
      | none => none
      | some m =>
          some { p with confirmationMessage := some ("\u200C" ++ getProcessedMessage m contact) }
    else some p
  else some p

/-- Assemble the shipping payload object of `handlePrepareContact`. -/
def buildShippingPayload (campaign : Campaign) (contact : VerifiedContact)
    (itemId campaignId : Nat) (msgDraw confDraw : Nat) : Option ShippingPayload :=
  let base : ShippingPayload :=
    { number := contact.number, contactId := itemId, campaignId := campaignId,
      message := none, confirmationMessage := none }
  match buildMessagePart campaign contact base msgDraw with
  | none => none
  | some p => buildConfirmationPart campaign contact p confDraw

/-- The row created by the `findOrCreate` for a missing `(campaignId,
contactId)` pair: the payload fields as defaults, everything else null. -/
def newShippingRecord (sid : Nat) (p : ShippingPayload) (jid : Option Nat) : CampaignShipping :=
  { id := sid, campaignId := p.campaignId, contactId := p.contactId, number := p.number,
    message := p.message, confirmationMessage := p.confirmationMessage, confirmation := none,
    confirmationRequestedAt := none, deliveredAt := none, jobId := jid }

/-- `record.set(campaignShipping)`: refresh the fields present on the
payload object, leaving the delivery state, id and jobId untouched. -/
def applySet (r : CampaignShipping) (p : ShippingPayload) : CampaignShipping :=
  { r with
    number := p.number
    contactId := p.contactId
    campaignId := p.campaignId
    message := match p.message with | some m => some m | none => r.message
    confirmationMessage :=
      match p.confirmationMessage with | some m => some m | none => r.confirmationMessage }

/-- The catch block of `handlePrepareContact`: mark the campaign
`FINALIZADA_COM_ERROS` and re-throw. -/
def prepareCatch (w : World) (campaign : Campaign) (now : Int) : World × Bool :=
  (updateCampaignRow w campaign.id (setStatus CampaignStatus.FINALIZADA_COM_ERROS (some now)),
    true)

/-- Tail of `handlePrepareContact` for a record that is still undelivered
and unconfirmed: add exactly one `DispatchCampaign` job with the computed
`delay`, store its id on the record, then re-evaluate completion. -/
def finishPending (w : World) (campaign : Campaign) (record : CampaignShipping)
    (contact : VerifiedContact) (delay : Int) (now : Int) : World × Bool :=
  let jid := w.nextJobId
  let wJ := { w with
    jobs := w.jobs ++ [(jid, CampaignJob.dispatchCampaign campaign.id record.id contact.id delay)]
    nextJobId := jid + 1 }
  let wU := updateShippingRow wJ record.id (fun r => { r with jobId := some jid })
  ((verifyAndFinalizeCampaign wU campaign now).1, false)

/-- `handlePrepareContact`: load the campaign (re-thrown if missing), then
inside the try: `ShowService`, `GetWhatsappWbot`, `verifyContact`, build the
payload, `findOrCreate` on `(campaignId, contactId)`, refresh a found
pending record, enqueue one dispatch job while the record is pending, and
re-evaluate completion; any error marks the campaign
`FINALIZADA_COM_ERROS` and re-raises. -/
def handlePrepareContact (w : World) (contactListItemId campaignId : Nat) (delay : Int)
    (ext : PrepareExt) (now : Int) : World × Bool :=
  match getCampaign w campaignId with
  | none => (w, true)
  | some campaign =>
    match w.contactItems.find? (fun it => it.id == contactListItemId) with
    | none => prepareCatch w campaign now
    | some contactListItem =>
      if ext.wbotOk = false then prepareCatch w campaign now
      else
        match ext.verified with
        | none => prepareCatch w campaign now
        | some contact =>
          match buildShippingPayload campaign contact contactListItem.id campaignId
              ext.msgDraw ext.confDraw with
          | none => prepareCatch w campaign now
          | some payload =>
            match w.shippings.find?
                (fun s => s.campaignId == campaignId && s.contactId == contactListItem.id) with
            | none =>
              let record := newShippingRecord w.nextShippingId payload none
              let wC := { w with
                shippings := w.shippings ++ [record]
                nextShippingId := w.nextShippingId + 1 }
              finishPending wC campaign record contact delay now
            | some record0 =>
              if record0.deliveredAt.isNone && record0.confirmationRequestedAt.isNone then
                let record1 := applySet record0 payload
                let wS := updateShippingRow w record0.id (fun _ => record1)
                finishPending wS campaign record1 contact delay now
              else
                ((verifyAndFinalizeCampaign w campaign now).1, false)

/-- External inputs of one `handleDispatchCampaign` run. -/
structure DispatchExt where
  ticketOk : Bool
  wbotOk : Bool
  mediaOptionsNonempty : Bool
  mediaSendOk : Bool
  textSendOk : Bool
deriving DecidableEq

/-- A `DispatchExt` in which every external call succeeds. -/
def allOkExt : DispatchExt :=
  { ticketOk := true, wbotOk := true, mediaOptionsNonempty := true,
    mediaSendOk := true, textSendOk := true }

/-- The second catch block of `handleDispatchCampaign`: mark the campaign
`FINALIZADA_COM_ERROS`, find-or-create the ticket and force-close it, and
re-throw. -/
def dispatchCatch (w : World) (campaign : Campaign) (contactId : Nat) (now : Int) :
    World × Bool :=
  let w1 := updateCampaignRow w campaign.id
    (setStatus CampaignStatus.FINALIZADA_COM_ERROS (some now))
  ({ w1 with
      tickets := w1.tickets ++ [TicketAction.openedOrFound contactId,
        TicketAction.closed contactId] },
    true)

/-- The shipping-record update performed by one dispatch:
`isConfirm ? {confirmationRequestedAt: moment()} : {deliveredAt: moment()}`. -/
def dispatchMark (isConfirm : Bool) (now : Int) (s : CampaignShipping) : CampaignShipping :=
  if isConfirm then { s with confirmationRequestedAt := some now }
  else { s with deliveredAt := some now }

/-- Final part of the dispatch try block: send the text (confirmation or
main message), apply `dispatchMark`, re-evaluate completion and emit one
more socket event with the same in-memory campaign object. -/
def dispatchSendText (w : World) (campaign : Campaign) (shipping : CampaignShipping)
    (contactId : Nat) (isConfirm : Bool) (chatId : String) (textOk : Bool) (now : Int) :
    World × Bool :=
  if textOk = false then dispatchCatch w campaign contactId now
  else
    let w1 := { w with
      sent := w.sent ++ [SentMessage.text chatId
        (if isConfirm then shipping.confirmationMessage else shipping.message)] }
    let w2 := updateShippingRow w1 shipping.id (dispatchMark isConfirm now)
    let v := verifyAndFinalizeCampaign w2 campaign now
    ({ v.1 with
        events := v.1.events ++ [{ companyId := campaign.companyId, record := v.2 }] },
      false)

/-- `handleDispatchCampaign`: load the campaign (re-thrown if missing);
first try: find-or-create (and maybe update) the campaign ticket, a failure
marking the campaign `FINALIZADA_COM_ERROS` and re-raising; second try:
load the shipping record, resolve the session, compute
`isConfirm = campaign.confirmation && campaignShipping.confirmation === null`,
send the media first on a non-confirmation send with a media path, then the
text, mark the record and re-evaluate completion; any error in the second
try runs `dispatchCatch`. -/
def handleDispatchCampaign (w : World) (campaignId campaignShippingId contactId : Nat)
    (ext : DispatchExt) (now : Int) : World × Bool :=
  match getCampaign w campaignId with
  | none => (w, true)
  | some campaign =>
    if ext.ticketOk = false then
      (updateCampaignRow w campaign.id
        (setStatus CampaignStatus.FINALIZADA_COM_ERROS (some now)), true)
    else
      let w0 := { w with tickets := w.tickets ++ [TicketAction.openedOrFound contactId] }
      match w0.shippings.find? (fun s => s.id == campaignShippingId) with
      | none => dispatchCatch w0 campaign contactId now
      | some shipping =>
        if ext.wbotOk = false then dispatchCatch w0 campaign contactId now
        else
          let chatId := shipping.number ++ "@s.whatsapp.net"
          let isConfirm := campaign.confirmation && shipping.confirmation.isNone
          let mediaStep : Option World :=
            if isConfirm = false ∧ campaign.mediaPath.isSome then
              if ext.mediaOptionsNonempty then
                if ext.mediaSendOk then
                  some { w0 with sent := w0.sent ++ [SentMessage.media chatId campaign.mediaName] }
                else none
              else some w0
            else some w0
          match mediaStep with
          | none => dispatchCatch w0 campaign contactId now
          | some w1 =>
            dispatchSendText w1 campaign shipping contactId isConfirm chatId ext.textSendOk now

/-- `campaignQueue.add` for a batch of jobs, in order, assigning ids. -/
def enqueueJobs (w : World) : List CampaignJob → World
  | [] => w
  | j :: rest =>
      enqueueJobs { w with jobs := w.jobs ++ [(w.nextJobId, j)], nextJobId := w.nextJobId + 1 } rest

/-- `handleProcessCampaign`: load the campaign (re-thrown if missing),
fan out one `PrepareContact` job per included contact in snapshot order via
`prepareJobsLoop` (the `isArray` guard cannot fail on a typed list), then
set the campaign `EM_ANDAMENTO`.  `settings` is the result of
`getSettings`, `initialDelay` the job's `delay` field. -/
def handleProcessCampaign (w : World) (campaignId : Nat) (initialDelay : Int)
    (settings : CampaignDelay) (draws : Nat → Nat) : World × Bool :=
  match getCampaign w campaignId with
  | none => (w, true)
  | some campaign =>
    let jobs := prepareJobsLoop campaign.id settings draws campaign.contacts 0 initialDelay
    let w1 := enqueueJobs w jobs
    (updateCampaignRow w1 campaignId (fun c => { c with status := CampaignStatus.EM_ANDAMENTO }),
      false)

/-- `true` exactly for a `DispatchCampaign` job targeting the given
shipping record. -/
def isDispatchFor : CampaignJob → Nat → Bool
  | CampaignJob.dispatchCampaign _ sid _ _, x => sid == x
  | _, _ => false

/-- Concrete contact-list item used by the execution traces. -/
def item1 : ContactListItem :=
  { id := 1, name := "Ana", number := "5511", email := "ana@mail", isWhatsappValid := true }

/-- Second concrete contact-list item. -/
def item2 : ContactListItem :=
  { id := 2, name := "Bia", number := "5522", email := "bia@mail", isWhatsappValid := true }

/-- `verifyContact` result for `item1`. -/
def vc1 : VerifiedContact := { id := 101, name := "Ana", number := "5511", email := "ana@mail" }

/-- `verifyContact` result for `item2`. -/
def vc2 : VerifiedContact := { id := 102, name := "Bia", number := "5522", email := "bia@mail" }

/-- Successful preparer externals resolving `item1`. -/
def okPrepExt1 : PrepareExt := { wbotOk := true, verified := some vc1, msgDraw := 0, confDraw := 0 }

/-- Successful preparer externals resolving `item2`. -/
def okPrepExt2 : PrepareExt := { wbotOk := true, verified := some vc2, msgDraw := 0, confDraw := 0 }

/-- Dispatch externals in which the ticket find-or-create throws. -/
def failTicketExt : DispatchExt := { allOkExt with ticketOk := false }

/-- A two-recipient campaign without the confirmation flow. -/
def baseCampaign : Campaign :=
  { id := 1, companyId := 9, confirmation := false
    message1 := some "ola \x7bnome\x7d", message2 := none, message3 := none
    message4 := none, message5 := none
    confirmationMessage1 := none, confirmationMessage2 := none, confirmationMessage3 := none
    confirmationMessage4 := none, confirmationMessage5 := none
    mediaPath := none, mediaName := none
    status := CampaignStatus.PROGRAMADA, scheduledAt := 0, completedAt := none
    contacts := [item1, item2] }

/-- Initial state for the `baseCampaign` traces. -/
def w0 : World :=
  { campaigns := [baseCampaign], shippings := [], contactItems := [item1, item2]
    jobs := [], sent := [], events := [], tickets := [], nextJobId := 1, nextShippingId := 1 }

/-- Trace: the orchestrator fans out the two `PrepareContact` jobs. -/
def t0 : World := (handleProcessCampaign w0 1 0 campaignDelayDefaults zeroDraws).1

/-- Trace: preparer runs for `item1` (shipping 1, dispatch job 3). -/
def t1 : World := (handlePrepareContact t0 1 1 0 okPrepExt1 10).1

/-- Trace: preparer runs for `item2` (shipping 2, dispatch job 4). -/
def t2 : World := (handlePrepareContact t1 2 1 0 okPrepExt2 11).1

/-- Trace: preparer runs again for `item2` - a Bull retry - while shipping 2
is still undelivered and unconfirmed (duplicate dispatch job 5). -/
def t3 : World := (handlePrepareContact t2 2 1 0 okPrepExt2 12).1

/-- Trace: dispatch of shipping 1 succeeds (delivered at 20). -/
def t4 : World := (handleDispatchCampaign t3 1 1 101 allOkExt 20).1

/-- Trace: dispatch of shipping 2 succeeds; all recipients are delivered,
so `verifyAndFinalizeCampaign` sets `FINALIZADA`. -/
def t5 : World := (handleDispatchCampaign t4 1 2 102 allOkExt 21).1

/-- Trace: the duplicate dispatch job for shipping 2 runs after completion
and its ticket call throws, flipping the campaign to
`FINALIZADA_COM_ERROS`. -/
def t6 : World := (handleDispatchCampaign t5 1 2 102 failTicketExt 22).1

/-- Alternative branch from `t3`: the dispatch of shipping 1 fails at the
ticket service, marking the campaign `FINALIZADA_COM_ERROS`. -/
def u4 : World := (handleDispatchCampaign t3 1 1 101 failTicketExt 20).1

/-- The queued dispatch job for shipping 2 then still runs against the
terminal campaign and delivers it. -/
def u5 : World := (handleDispatchCampaign u4 1 2 102 allOkExt 21).1

/-- A one-recipient campaign with the confirmation flow enabled. -/
def confCampaign : Campaign :=
  { id := 2, companyId := 9, confirmation := true
    message1 := some "oi", message2 := none, message3 := none
    message4 := none, message5 := none
    confirmationMessage1 := some "confirma", confirmationMessage2 := none
    confirmationMessage3 := none, confirmationMessage4 := none, confirmationMessage5 := none
    mediaPath := none, mediaName := none
    status := CampaignStatus.PROGRAMADA, scheduledAt := 0, completedAt := none
    contacts := [item1] }

/-- Initial state for the confirmation-flow trace. -/
def cw0 : World :=
  { campaigns := [confCampaign], shippings := [], contactItems := [item1]
    jobs := [], sent := [], events := [], tickets := [], nextJobId := 1, nextShippingId := 1 }

/-- Trace: preparer creates shipping 1 and dispatch job 1. -/
def cw1 : World := (handlePrepareContact cw0 1 2 0 okPrepExt1 5).1

/-- Trace: a preparer retry enqueues the duplicate dispatch job 2. -/
def cw2 : World := (handlePrepareContact cw1 1 2 0 okPrepExt1 6).1

/-- Trace: the first dispatch sends the confirmation request at 7. -/
def cw3 : World := (handleDispatchCampaign cw2 2 1 101 allOkExt 7).1

/-- Trace: the second dispatch runs at 8, with the confirmation response
still not recorded. -/
def cw4 : World := (handleDispatchCampaign cw3 2 1 101 allOkExt 8).1

/-- The shipping record present in `cw2`. -/
def cws : CampaignShipping :=
  { id := 1, campaignId := 2, contactId := 1, number := "5511"
    message := some "\u200Coi", confirmationMessage := some "\u200Cconfirma"
    confirmation := none, confirmationRequestedAt := none, deliveredAt := none
    jobId := some 2 }

/-- A shipping record already delivered, for the at-most-once guard. -/
def dwShipping : CampaignShipping :=
  { id := 1, campaignId := 1, contactId := 1, number := "5511"
    message := some "m", confirmationMessage := none
    confirmation := none, confirmationRequestedAt := none, deliveredAt := some 10
    jobId := some 1 }

/-- A world in which `item1` of `baseCampaign` has already been delivered. -/
def dw : World :=
  { campaigns := [baseCampaign], shippings := [dwShipping], contactItems := [item1, item2]
    jobs := [], sent := [], events := [], tickets := [], nextJobId := 2, nextShippingId := 2 }

/-- A campaign row due in thirty minutes. -/
def dueRow : DueCampaignRow := { id := 7, scheduledAt := 1800000 }

/-- A pending schedule row due in ten seconds (at `now = 90`). -/
def schedRow : ScheduleRec :=
  { id := 5, companyId := 9, contactName := "Ana", contactNumber := "5511"
    body := "oi", sendAt := 10090, sentAt := none, status := ScheduleStatus.PENDENTE }

/-- The job payload snapshot for `schedRow`. -/
def schedPayload : SchedulePayload :=
  { id := 5, companyId := 9, contactName := "Ana", contactNumber := "5511", body := "oi" }

/-- The payload the preparer assembles for `item1` of `baseCampaign`. -/
def p0 : ShippingPayload :=
  { number := "5511", contactId := 1, campaignId := 1,
    message := some "\u200Cola Ana", confirmationMessage := none }

/-- The campaign row as stored in `t6`: terminal with errors, after all
recipients were delivered. -/
def row6 : Campaign :=
  { baseCampaign with status := CampaignStatus.FINALIZADA_COM_ERROS, completedAt := some 22 }

/-- The campaign row as stored in `t2`: running, nothing delivered yet. -/
def rowEm : Campaign :=
  { baseCampaign with status := CampaignStatus.EM_ANDAMENTO }

/-- The `delay || 0` written into the `PrepareContact` payload is the
identity on integer delays. -/
theorem jsOrZero_eq (d : Int) : jsOrZero d = d := by
  unfold jsOrZero; split <;> omega

/-- `find?` through a conditional row update: when the update preserves the
selection predicate, finding after updating is updating the found row. -/
theorem find?_map_update {α : Type} (p : α → Bool) (f : α → α)
    (hf : ∀ a, p (f a) = p a) (l : List α) :
    (l.map (fun a => if p a then f a else a)).find? p = (l.find? p).map f := by
  induction l with
  | nil => rfl
  | cons a l ih =>
    cases hp : p a with
    | true => simp [List.find?_cons, hp, hf a]
    | false => simp [List.find?_cons, hp, ih]

/-- Completion re-evaluation does not touch the shipping table. -/
theorem verify_shippings (w : World) (c : Campaign) (n : Int) :
    (verifyAndFinalizeCampaign w c n).1.shippings = w.shippings := by
  unfold verifyAndFinalizeCampaign updateCampaignRow
  dsimp only
  split <;> rfl

/-- Completion re-evaluation does not touch the job queue. -/
theorem verify_jobs (w : World) (c : Campaign) (n : Int) :
    (verifyAndFinalizeCampaign w c n).1.jobs = w.jobs := by
  unfold verifyAndFinalizeCampaign updateCampaignRow
  dsimp only
  split <;> rfl

/-- Completion re-evaluation does not touch the contact-list items. -/
theorem verify_contactItems (w : World) (c : Campaign) (n : Int) :
    (verifyAndFinalizeCampaign w c n).1.contactItems = w.contactItems := by
  unfold verifyAndFinalizeCampaign updateCampaignRow
  dsimp only
  split <;> rfl

/-- Completion re-evaluation does not touch the job-id counter. -/
theorem verify_nextJobId (w : World) (c : Campaign) (n : Int) :
    (verifyAndFinalizeCampaign w c n).1.nextJobId = w.nextJobId := by
  unfold verifyAndFinalizeCampaign updateCampaignRow
  dsimp only
  split <;> rfl

/-- Completion re-evaluation does not touch the shipping-id counter. -/
theorem verify_nextShippingId (w : World) (c : Campaign) (n : Int) :
    (verifyAndFinalizeCampaign w c n).1.nextShippingId = w.nextShippingId := by
  unfold verifyAndFinalizeCampaign updateCampaignRow
  dsimp only
  split <;> rfl

/-- C1: the claim states that once a campaign's status is terminal
(`FINALIZADA` / `FINALIZADA_COM_ERROS`) no subsequent step writes a
non-null `deliveredAt` into any of its shipping records.  The code violates
this: `handleDispatchCampaign` never inspects the campaign status.  In the
reachable trace `u4` (orchestrate, prepare both recipients, first dispatch
fails at the ticket service) the campaign is `FINALIZADA_COM_ERROS` while
shipping 2 is still undelivered, and the already-queued dispatch job for
shipping 2 then runs (`u5`) and writes `deliveredAt`. -/
theorem C1_dispatch_after_terminal_writes_deliveredAt :
    ((u4.campaigns.find? (fun c => c.id == 1)).map (fun c => c.status) =
      some CampaignStatus.FINALIZADA_COM_ERROS) ∧
    ((u4.shippings.find? (fun s => s.id == 2)).map (fun s => s.deliveredAt) = some none) ∧
    (handleDispatchCampaign u4 1 2 102 allOkExt 21).2 = false ∧
    ((u5.shippings.find? (fun s => s.id == 2)).map (fun s => s.deliveredAt) = some (some 21)) := by
  decide

/-- C2 counterexample: running `handlePrepareContact` twice in sequence for
the recipient `item2` while its shipping record is still undelivered and
unconfirmed (trace `t1` to `t3`) leaves exactly one shipping record for the
`(campaignId, contactId)` pair but two `DispatchCampaign` jobs for it,
contradicting the claimed "at most one dispatch job while the record is
undelivered and unconfirmed". -/
theorem C2_counterexample :
    ((t3.shippings.find? (fun s => s.id == 2)).map
      (fun s => (s.deliveredAt, s.confirmationRequestedAt)) = some (none, none)) ∧
    (t3.shippings.filter (fun s => s.campaignId == 1 && s.contactId == 2)).length = 1 ∧
    (t3.jobs.filter (fun j => isDispatchFor j.2 2)).length = 2 ∧
    ¬ (t3.jobs.filter (fun j => isDispatchFor j.2 2)).length ≤ 1 := by
  decide

/-- C3 counterexample: with the settings of the claim and the legitimate
random stream that always draws `0` (each draw is `< 20`), the delay
assigned to the recipient at 1-based index 20 equals the delay assigned at
index 19 (difference `0`, not the claimed `60000`): the 60-second cooldown
is applied after the 20th recipient, i.e. between indices 20 and 21. -/
theorem C3_counterexample :
    delayAssignedTo pacing20 zeroDraws 0 20 - delayAssignedTo pacing20 zeroDraws 0 19 = 0 ∧
    ((0 : Int) = 60000 → False) ∧
    delayAssignedTo pacing20 zeroDraws 0 21 - delayAssignedTo pacing20 zeroDraws 0 20 = 60000 := by
  decide

/-- C4 counterexample: the claim's advance rule (`specAdvanceMs`, written
from the specification wording) says to add `greaterInterval` seconds at a
multiple of `longerIntervalAfter`, but the source computes
`parseToMilliseconds(settings.greaterInterval || 60)`: with
`longerIntervalAfter = 1` and `greaterInterval = 0` the code advances the
delay by 60000 ms where the claim requires 0 ms. -/
theorem C4_counterexample :
    specAdvanceMs pacingGreaterZero 0 1 = 0 ∧
    codeAdvanceMs pacingGreaterZero 0 1 = 60000 ∧
    delayAfterN pacingGreaterZero zeroDraws 0 1 = 60000 ∧
    ((60000 : Int) = 0 → False) := by
  decide

/-- C7 counterexample: in the reachable confirmation-flow trace, the first
dispatch (at 7) sends the confirmation message and sets
`confirmationRequestedAt`, as the claim says; but the subsequent dispatch
for the same recipient (at 8) does not send the main message and does not
set `deliveredAt` - the gate is `campaignShipping.confirmation === null`,
which is still null until the recipient replies, so the dispatcher repeats
the confirmation send and refreshes `confirmationRequestedAt`. -/
theorem C7_counterexample :
    ((cw3.shippings.find? (fun s => s.id == 1)).map
      (fun s => (s.confirmationRequestedAt, s.deliveredAt)) = some (some 7, none)) ∧
    ((cw4.shippings.find? (fun s => s.id == 1)).map
      (fun s => (s.confirmationRequestedAt, s.deliveredAt)) = some (some 8, none)) ∧
    cw4.sent = [SentMessage.text "5511@s.whatsapp.net" (some "\u200Cconfirma"),
      SentMessage.text "5511@s.whatsapp.net" (some "\u200Cconfirma")] := by
  decide

/-- C8 counterexample: when the defensive re-fetch throws and the send then
fails, `scheduleRecord` is `null`, so the catch block's
`scheduleRecord?.update({status: "ERRO"})` is skipped entirely: the handler
re-raises but performs no `ERRO` status update, contradicting the claim
that any failure of the send path updates the Schedule's status to `ERRO`. -/
theorem C8_counterexample :
    (handleSendScheduledMessage schedPayload RefetchResult.threw true false 100).raised = true ∧
    (handleSendScheduledMessage schedPayload RefetchResult.threw true false 100).update = none ∧
    (handleSendScheduledMessage schedPayload RefetchResult.threw true false 100).sentTo =
      some ("5511", "oi") := by
  decide

/-- The campaign-verifier loop emits one job per selected row. -/
theorem verifyCampaignsLoop_length (now : Int) :
    ∀ l : List DueCampaignRow, (verifyCampaignsLoop now l).length = l.length
  | [] => rfl
  | _ :: l => by simp [verifyCampaignsLoop, verifyCampaignsLoop_length now l]

/-- The job at position `i` of the campaign-verifier loop. -/
theorem verifyCampaignsLoop_get (now : Int) :
    ∀ (l : List DueCampaignRow) (i : Nat) (h : i < l.length),
      (verifyCampaignsLoop now l).get ⟨i, by rw [verifyCampaignsLoop_length]; exact h⟩ =
        CampaignJob.processCampaign (l.get ⟨i, h⟩).id ((l.get ⟨i, h⟩).scheduledAt - now) true
  | _ :: _, 0, _ => rfl
  | _ :: l, i + 1, h => verifyCampaignsLoop_get now l i (Nat.lt_of_succ_lt_succ h)

/-- A row passing the verifier filter has a non-negative delay. -/
theorem campaignDue_nonneg {now : Int} {c : DueCampaignRow} (h : campaignDue now c = true) :
    0 ≤ c.scheduledAt - now := by
  simp only [campaignDue, Bool.and_eq_true, decide_eq_true_eq] at h
  omega

/-- C5: for every due campaign selected by the campaign verifier, exactly
one `ProcessCampaign` job is enqueued, in order, carrying
`{campaignId, delay}` with `delay = scheduledAt - now` non-negative (zero
exactly for a campaign whose `scheduledAt` equals the tick time) and
`removeOnComplete` set. -/
theorem C5_campaign_verifier (db : List DueCampaignRow) (now : Int) (i : Nat)
    (h : i < (db.filter (campaignDue now)).length) :
    (handleVerifyCampaigns db now).length = (db.filter (campaignDue now)).length ∧
    (handleVerifyCampaigns db now).get
        ⟨i, by rw [handleVerifyCampaigns, verifyCampaignsLoop_length]; exact h⟩ =
      CampaignJob.processCampaign ((db.filter (campaignDue now)).get ⟨i, h⟩).id
        (((db.filter (campaignDue now)).get ⟨i, h⟩).scheduledAt - now) true ∧
    0 ≤ ((db.filter (campaignDue now)).get ⟨i, h⟩).scheduledAt - now := by
  refine ⟨verifyCampaignsLoop_length now _, verifyCampaignsLoop_get now _ i h, ?_⟩
  have hmem : (db.filter (campaignDue now)).get ⟨i, h⟩ ∈ db.filter (campaignDue now) :=
    List.get_mem _ i _
  exact campaignDue_nonneg (List.of_mem_filter hmem)

/-- C5 witness: the verifier tick at `now = 0` over a single campaign due
in thirty minutes. -/
theorem C5_witness :
    (handleVerifyCampaigns [dueRow] 0).length = ([dueRow].filter (campaignDue 0)).length ∧
    0 ≤ (([dueRow].filter (campaignDue 0)).get ⟨0, by decide⟩).scheduledAt - 0 :=
  ⟨(C5_campaign_verifier [dueRow] 0 0 (by decide)).1,
    (C5_campaign_verifier [dueRow] 0 0 (by decide)).2.2⟩

/-- The schedule-verifier loop updates exactly the selected rows. -/
theorem verifySchedulesLoop_fst (now : Int) :
    ∀ l : List ScheduleRec,
      (verifySchedulesLoop now l).1 =
        l.map (fun s => if scheduleDue now s then { s with status := ScheduleStatus.AGENDADA } else s)
  | [] => rfl
  | s :: l => by
    cases hd : scheduleDue now s <;>
      simp [verifySchedulesLoop, hd, verifySchedulesLoop_fst now l]

/-- The schedule-verifier loop enqueues one job per selected row, in order. -/
theorem verifySchedulesLoop_snd (now : Int) :
    ∀ l : List ScheduleRec,
      (verifySchedulesLoop now l).2 =
        (l.filter (scheduleDue now)).map (fun s => mkSchedJob s.id)
  | [] => rfl
  | s :: l => by
    cases hd : scheduleDue now s <;>
      simp [verifySchedulesLoop, List.filter_cons, hd, verifySchedulesLoop_snd now l]

/-- C6: one run of the schedule verifier flips every `PENDENTE`,
unsent schedule whose `sendAt` lies within `[now, now+30s]` to `AGENDADA`
and enqueues, for each such schedule, exactly one `SendMessage` job on the
scheduled-send queue with a delay of exactly 40000 ms; non-matching rows
and their jobs are untouched. -/
theorem C6_schedule_verifier (db : List ScheduleRec) (now : Int) (s : ScheduleRec)
    (hmem : s ∈ db) (hdue : scheduleDue now s = true) :
    (handleVerifySchedules db now).1 =
      db.map (fun r => if scheduleDue now r then { r with status := ScheduleStatus.AGENDADA } else r) ∧
    (handleVerifySchedules db now).2 =
      (db.filter (scheduleDue now)).map (fun r => mkSchedJob r.id) ∧
    ({ s with status := ScheduleStatus.AGENDADA } : ScheduleRec) ∈ (handleVerifySchedules db now).1 ∧
    mkSchedJob s.id ∈ (handleVerifySchedules db now).2 ∧
    mkSchedJob s.id = { queue := schedSendQueueName, jobType := "SendMessage", scheduleId := s.id, delay := 40000 } ∧
    (scheduleDue now s = true ↔
      (s.status = ScheduleStatus.PENDENTE ∧ s.sentAt = none ∧
        now ≤ s.sendAt ∧ s.sendAt ≤ now + 30000)) := by
  refine ⟨verifySchedulesLoop_fst now db, verifySchedulesLoop_snd now db, ?_, ?_, rfl, ?_⟩
  · rw [handleVerifySchedules, verifySchedulesLoop_fst now db]
    have h2 := List.mem_map_of_mem
      (fun r => if scheduleDue now r then { r with status := ScheduleStatus.AGENDADA } else r) hmem
    simpa [hdue] using h2
  · rw [handleVerifySchedules, verifySchedulesLoop_snd now db]
    exact List.mem_map_of_mem _ (List.mem_filter.mpr ⟨hmem, hdue⟩)
  · simp [scheduleDue, Bool.and_eq_true, decide_eq_true_eq, and_assoc]

/-- C6 witness: a pending schedule due in ten seconds at tick time 90. -/
theorem C6_witness :
    ({ schedRow with status := ScheduleStatus.AGENDADA } : ScheduleRec) ∈
      (handleVerifySchedules [schedRow] 90).1 ∧
    mkSchedJob schedRow.id ∈ (handleVerifySchedules [schedRow] 90).2 :=
  ⟨(C6_schedule_verifier [schedRow] 90 schedRow (by decide) (by decide)).2.2.1,
    (C6_schedule_verifier [schedRow] 90 schedRow (by decide) (by decide)).2.2.2.1⟩

/-- C8 (amended): any failure of the send path re-raises and, exactly when
the defensive re-fetch produced a record, updates that record's status to
`ERRO` (the optional-chained update is skipped when the re-fetch threw or
found nothing); on success the re-fetched record - when present - is
updated to `ENVIADA` with a sent timestamp; and once the channel is
resolved the send proceeds with the contact snapshot embedded in the job
payload, regardless of the re-fetch outcome. -/
theorem C8_amended (payload : SchedulePayload) (refetch : RefetchResult)
    (waOk sendOk : Bool) (now : Int) :
    ((waOk = false ∨ sendOk = false) →
      (handleSendScheduledMessage payload refetch waOk sendOk now).raised = true ∧
      (handleSendScheduledMessage payload refetch waOk sendOk now).update =
        (refetchRecord refetch).map (fun r => (r.id, ScheduleStatus.ERRO, (none : Option Int)))) ∧
    (waOk = true → sendOk = true →
      (handleSendScheduledMessage payload refetch waOk sendOk now).raised = false ∧
      (handleSendScheduledMessage payload refetch waOk sendOk now).update =
        (refetchRecord refetch).map (fun r => (r.id, ScheduleStatus.ENVIADA, some now))) ∧
    (waOk = true →
      (handleSendScheduledMessage payload refetch waOk sendOk now).sentTo =
        some (payload.contactNumber, payload.body)) := by
  cases waOk <;> cases sendOk <;> simp [handleSendScheduledMessage]

/-- C8 witness: a successful send with a re-fetched record. -/
theorem C8_amended_witness :
    (handleSendScheduledMessage schedPayload (RefetchResult.found schedRow) true true 100).raised
      = false ∧
    (handleSendScheduledMessage schedPayload (RefetchResult.found schedRow) true true 100).update
      = some (5, ScheduleStatus.ENVIADA, some 100) := by
  have h := (C8_amended schedPayload (RefetchResult.found schedRow) true true 100).2.1 rfl rfl
  exact ⟨h.1, by rw [h.2]; rfl⟩

/-- C9: the completion evaluator performs the transition to `FINALIZADA`
with a completion timestamp precisely when the delivered-shipping count
equals the included recipient-set size (otherwise the campaign rows are
untouched), and it appends exactly one state-change event on every
invocation, carrying the possibly-updated in-memory record. -/
theorem C9_completion_evaluator (w : World) (campaign : Campaign) (now : Int) (c : Campaign)
    (hc : c ∈ w.campaigns) (hid : c.id = campaign.id) :
    (deliveredCount w campaign.id = campaign.contacts.length →
      setStatus CampaignStatus.FINALIZADA (some now) c ∈
        (verifyAndFinalizeCampaign w campaign now).1.campaigns ∧
      (verifyAndFinalizeCampaign w campaign now).2 =
        setStatus CampaignStatus.FINALIZADA (some now) campaign ∧
      (setStatus CampaignStatus.FINALIZADA (some now) c).status = CampaignStatus.FINALIZADA ∧
      (setStatus CampaignStatus.FINALIZADA (some now) c).completedAt = some now) ∧
    (deliveredCount w campaign.id ≠ campaign.contacts.length →
      (verifyAndFinalizeCampaign w campaign now).1.campaigns = w.campaigns ∧
      (verifyAndFinalizeCampaign w campaign now).2 = campaign) ∧
    (verifyAndFinalizeCampaign w campaign now).1.events =
      w.events ++
        [⟨campaign.companyId, (verifyAndFinalizeCampaign w campaign now).2⟩] := by
  by_cases hfin : campaign.contacts.length = deliveredCount w campaign.id
  · have hb : (campaign.contacts.length == deliveredCount w campaign.id) = true := by
      simpa using hfin
    refine ⟨fun _ => ?_, fun hne => absurd hfin.symm hne, ?_⟩
    · refine ⟨?_, by simp [verifyAndFinalizeCampaign, hb], rfl, rfl⟩
      have hmem := List.mem_map_of_mem
        (fun x => if x.id == campaign.id then
          setStatus CampaignStatus.FINALIZADA (some now) x else x) hc
      simp only [verifyAndFinalizeCampaign, hb, if_true, updateCampaignRow]
      simpa [hid] using hmem
    · simp [verifyAndFinalizeCampaign, hb, updateCampaignRow]
  · have hb : (campaign.contacts.length == deliveredCount w campaign.id) = false := by
      simpa using hfin
    refine ⟨fun heq => absurd heq.symm hfin, fun _ => ?_, ?_⟩
    · constructor <;> simp [verifyAndFinalizeCampaign, hb]
    · simp [verifyAndFinalizeCampaign, hb]

/-- C9 witness: re-evaluating the running trace campaign `rowEm` in `t2`
(no deliveries yet, two recipients) leaves the rows untouched and emits
one event. -/
theorem C9_witness :
    ((verifyAndFinalizeCampaign t2 rowEm 50).1.campaigns = t2.campaigns ∧
      (verifyAndFinalizeCampaign t2 rowEm 50).2 = rowEm) ∧
    (verifyAndFinalizeCampaign t2 rowEm 50).1.events =
      t2.events ++ [⟨rowEm.companyId, (verifyAndFinalizeCampaign t2 rowEm 50).2⟩] := by
  have h := C9_completion_evaluator t2 rowEm 50 rowEm (by decide) rfl
  exact ⟨h.2.1 (by decide), h.2.2⟩

/-- C10: `verifyAndFinalizeCampaign` never inspects the current status:
whenever the delivered count equals the recipient-set size it overwrites
the status with `FINALIZADA`, in particular turning a
`FINALIZADA_COM_ERROS` campaign back into `FINALIZADA` - terminal states
are not absorbing under this operation. -/
theorem C10_terminal_not_absorbing (w : World) (campaign : Campaign) (now : Int) (c : Campaign)
    (hc : c ∈ w.campaigns) (hid : c.id = campaign.id)
    (hterm : c.status = CampaignStatus.FINALIZADA_COM_ERROS)
    (hcount : deliveredCount w campaign.id = campaign.contacts.length) :
    setStatus CampaignStatus.FINALIZADA (some now) c ∈
      (verifyAndFinalizeCampaign w campaign now).1.campaigns ∧
    (setStatus CampaignStatus.FINALIZADA (some now) c).status ≠ c.status := by
  constructor
  · have hb : (campaign.contacts.length == deliveredCount w campaign.id) = true := by
      simpa using hcount.symm
    have hmem := List.mem_map_of_mem
      (fun x => if x.id == campaign.id then
        setStatus CampaignStatus.FINALIZADA (some now) x else x) hc
    simp only [verifyAndFinalizeCampaign, hb, if_true, updateCampaignRow]
    simpa [hid] using hmem
  · simp [setStatus, hterm]

/-- C10 witness: in the reachable trace state `t6` the campaign row is
`FINALIZADA_COM_ERROS` with every recipient delivered, and one more
completion re-evaluation overwrites the terminal status with `FINALIZADA`. -/
theorem C10_witness :
    row6 ∈ t6.campaigns ∧
    row6.status = CampaignStatus.FINALIZADA_COM_ERROS ∧
    deliveredCount t6 row6.id = row6.contacts.length ∧
    setStatus CampaignStatus.FINALIZADA (some 30) row6 ∈
      (verifyAndFinalizeCampaign t6 row6 30).1.campaigns ∧
    (setStatus CampaignStatus.FINALIZADA (some 30) row6).status ≠ row6.status := by
  have h := C10_terminal_not_absorbing t6 row6 30 row6 (by decide) rfl (by decide) (by decide)
  exact ⟨by decide, by decide, by decide, h.1, h.2⟩

/-- Unfolding the delay accumulator from the right: the value after `n+1`
advances is the value after `n` advances plus the advance for index
`k+n+1`. -/
theorem delayAfterFrom_succ (s : CampaignDelay) (draws : Nat → Nat) :
    ∀ (n k : Nat) (d : Int),
      delayAfterFrom s draws k d (n + 1) =
        delayAfterFrom s draws k d n + codeAdvanceMs s (draws (k + n + 1)) (k + n + 1)
  | 0, k, d => by simp [delayAfterFrom]
  | n + 1, k, d => by
    show delayAfterFrom s draws (k + 1) (d + codeAdvanceMs s (draws (k + 1)) (k + 1)) (n + 1) = _
    rw [delayAfterFrom_succ s draws n (k + 1) (d + codeAdvanceMs s (draws (k + 1)) (k + 1))]
    have harith : k + 1 + n + 1 = k + (n + 1) + 1 := by omega
    rw [harith]
    rfl

/-- The loop variable after `n+1` advances, from the start of the loop. -/
theorem delayAfterN_succ (s : CampaignDelay) (draws : Nat → Nat) (d0 : Int) (n : Nat) :
    delayAfterN s draws d0 (n + 1) =
      delayAfterN s draws d0 n + codeAdvanceMs s (draws (n + 1)) (n + 1) := by
  unfold delayAfterN
  rw [delayAfterFrom_succ]
  norm_num

/-- The fan-out loop enqueues one job per recipient. -/
theorem prepareJobsLoop_length (cid : Nat) (s : CampaignDelay) (draws : Nat → Nat) :
    ∀ (cs : List ContactListItem) (k : Nat) (d : Int),
      (prepareJobsLoop cid s draws cs k d).length = cs.length
  | [], _, _ => rfl
  | _ :: cs, k, d => by
    simp [prepareJobsLoop, prepareJobsLoop_length cid s draws cs]

/-- The job at 0-based position `i` of the fan-out loop targets the `i`-th
recipient of the snapshot and carries the loop variable after `i`
advances. -/
theorem prepareJobsLoop_get (cid : Nat) (s : CampaignDelay) (draws : Nat → Nat) :
    ∀ (cs : List ContactListItem) (k : Nat) (d : Int) (i : Nat) (h : i < cs.length),
      (prepareJobsLoop cid s draws cs k d).get
          ⟨i, by rw [prepareJobsLoop_length]; exact h⟩ =
        CampaignJob.prepareContact (cs.get ⟨i, h⟩).id cid (delayAfterFrom s draws k d i) true
  | c :: cs, k, d, 0, _ => by
    simp [prepareJobsLoop, delayAfterFrom, jsOrZero_eq]
  | c :: cs, k, d, i + 1, h => by
    have ih := prepareJobsLoop_get cid s draws cs (k + 1)
      (d + codeAdvanceMs s (draws (k + 1)) (k + 1)) i (Nat.lt_of_succ_lt_succ h)
    exact ih

/-- C3 (amended): with the claimed settings, the delay assigned to the
recipient at 1-based index 21 exceeds the delay assigned at index 20 by
exactly 60000 ms (the 60-second cooldown fires after every 20th
recipient), and at every index `i` that is not a multiple of 20 the delay
assigned at `i+1` exceeds the delay at `i` by the pseudo-random amount
`1000 * draw` ms with `draw` in `[0, 20)`, hence strictly less than
20000 ms. -/
theorem C3_amended (d0 : Int) (draws : Nat → Nat) (hd : ∀ j, draws j < 20) :
    delayAssignedTo pacing20 draws d0 21 - delayAssignedTo pacing20 draws d0 20 = 60000 ∧
    (∀ i : Nat, i % 20 ≠ 0 →
      delayAssignedTo pacing20 draws d0 (i + 1) - delayAssignedTo pacing20 draws d0 i =
        1000 * (draws i : Int) ∧
      delayAssignedTo pacing20 draws d0 (i + 1) - delayAssignedTo pacing20 draws d0 i < 20000) := by
  constructor
  · show delayAfterN pacing20 draws d0 20 - delayAfterN pacing20 draws d0 19 = 60000
    have h20 : (19 : Nat) + 1 = 20 := rfl
    rw [← h20, delayAfterN_succ]
    have : codeAdvanceMs pacing20 (draws 20) 20 = 60000 := by
      simp [codeAdvanceMs, pacing20, parseToMilliseconds]
    rw [h20, this]
    ring
  · intro i hi
    have hpos : 1 ≤ i := by
      rcases Nat.eq_zero_or_pos i with h0 | h1
      · exact absurd (by simp [h0]) hi
      · exact h1
    have hiv : i - 1 + 1 = i := by omega
    have hadv : delayAssignedTo pacing20 draws d0 (i + 1) - delayAssignedTo pacing20 draws d0 i =
        codeAdvanceMs pacing20 (draws i) i := by
      show delayAfterN pacing20 draws d0 i - delayAfterN pacing20 draws d0 (i - 1) = _
      calc delayAfterN pacing20 draws d0 i - delayAfterN pacing20 draws d0 (i - 1)
          = delayAfterN pacing20 draws d0 (i - 1 + 1) -
              delayAfterN pacing20 draws d0 (i - 1) := by rw [hiv]
        _ = codeAdvanceMs pacing20 (draws (i - 1 + 1)) (i - 1 + 1) := by
              rw [delayAfterN_succ]; ring
        _ = codeAdvanceMs pacing20 (draws i) i := by rw [hiv]
    have hval : codeAdvanceMs pacing20 (draws i) i = 1000 * (draws i : Int) := by
      simp only [codeAdvanceMs, pacing20, parseToMilliseconds, randomValue]
      rw [if_neg hi]
      norm_num
      ring
    have hbound := hd i
    refine ⟨by rw [hadv, hval], ?_⟩
    rw [hadv, hval]
    have : (draws i : Int) < 20 := by exact_mod_cast hbound
    omega

/-- C3 witness: the amended statement at the constant draw stream `3`. -/
theorem C3_amended_witness :
    delayAssignedTo pacing20 threeDraws 0 21 - delayAssignedTo pacing20 threeDraws 0 20 = 60000 ∧
    delayAssignedTo pacing20 threeDraws 0 2 - delayAssignedTo pacing20 threeDraws 0 1 =
      1000 * 3 := by
  have h := C3_amended 0 threeDraws (fun j => by simp [threeDraws])
  refine ⟨h.1, ?_⟩
  have h2 := (h.2 1 (by decide)).1
  simpa [threeDraws] using h2

/-- C4 (amended): the orchestrator's fan-out enqueues one `PrepareContact`
job per recipient in snapshot order, the job at 0-based position `i`
carrying the running delay after `i` advances; the advance after the
recipient at 1-based index `j` adds `greaterInterval` seconds - with 60
substituted when `greaterInterval` is zero (the `|| 60` fallback) - when
`j` is a multiple of `longerIntervalAfter`, otherwise `fixedMessageInterval`
seconds when that is nonzero, otherwise a uniformly random number of
seconds drawn from `[0, randomMessageInterval)` - with 20 substituted when
`randomMessageInterval` is zero (the `|| 20` fallback); the static defaults
are 20/20/60/0. -/
theorem C4_amended (cid : Nat) (s : CampaignDelay) (draws : Nat → Nat)
    (cs : List ContactListItem) (d0 : Int) (i : Nat) (h : i < cs.length) :
    (prepareJobsLoop cid s draws cs 0 d0).length = cs.length ∧
    (prepareJobsLoop cid s draws cs 0 d0).get ⟨i, by rw [prepareJobsLoop_length]; exact h⟩ =
      CampaignJob.prepareContact (cs.get ⟨i, h⟩).id cid (delayAfterN s draws d0 i) true ∧
    (∀ j : Nat, delayAfterN s draws d0 (j + 1) =
      delayAfterN s draws d0 j + codeAdvanceMs s (draws (j + 1)) (j + 1)) ∧
    (∀ j : Nat, j % s.longerIntervalAfter = 0 →
      codeAdvanceMs s (draws j) j =
        1000 * (if s.greaterInterval = 0 then 60 else (s.greaterInterval : Int))) ∧
    (∀ j : Nat, j % s.longerIntervalAfter ≠ 0 → s.fixedMessageInterval ≠ 0 →
      codeAdvanceMs s (draws j) j = 1000 * (s.fixedMessageInterval : Int)) ∧
    (∀ j : Nat, j % s.longerIntervalAfter ≠ 0 → s.fixedMessageInterval = 0 →
      codeAdvanceMs s (draws j) j = 1000 * (draws j : Int) ∧
      (draws j < (if s.randomMessageInterval = 0 then 20 else s.randomMessageInterval) →
        codeAdvanceMs s (draws j) j <
          1000 * ((if s.randomMessageInterval = 0 then 20 else s.randomMessageInterval : Nat) : Int))) ∧
    campaignDelayDefaults =
      { randomMessageInterval := 20, longerIntervalAfter := 20,
        greaterInterval := 60, fixedMessageInterval := 0 } := by
  refine ⟨prepareJobsLoop_length cid s draws cs 0 d0,
    prepareJobsLoop_get cid s draws cs 0 d0 i h,
    fun j => delayAfterN_succ s draws d0 j, ?_, ?_, ?_, rfl⟩
  · intro j hj
    simp only [codeAdvanceMs, hj, if_true, parseToMilliseconds, Int.ofNat_eq_natCast]
    split
    · norm_num
    · ring
  · intro j hj hf
    simp only [codeAdvanceMs, parseToMilliseconds, Int.ofNat_eq_natCast]
    rw [if_neg hj, if_pos hf]
    ring
  · intro j hj hf
    have hfix : ¬ s.fixedMessageInterval ≠ 0 := by simp [hf]
    constructor
    · simp only [codeAdvanceMs, parseToMilliseconds, randomValue, Int.ofNat_eq_natCast]
      rw [if_neg hj, if_neg hfix]
      push_cast
      ring
    · intro hlt
      simp only [codeAdvanceMs, parseToMilliseconds, randomValue, Int.ofNat_eq_natCast]
      rw [if_neg hj, if_neg hfix]
      have h1 : draws j + 0 < if s.randomMessageInterval = 0 then 20
          else s.randomMessageInterval := by
        simpa using hlt
      have h2 := Int.ofNat_lt.mpr h1
      push_cast at h2 ⊢
      linarith

/-- C4 witness: the amended statement for two recipients with the default
settings and the constant draw stream `3`. -/
theorem C4_amended_witness :
    (prepareJobsLoop 1 campaignDelayDefaults threeDraws [item1, item2] 0 5).length =
      ([item1, item2] : List ContactListItem).length ∧
    delayAfterN campaignDelayDefaults threeDraws 5 1 =
      delayAfterN campaignDelayDefaults threeDraws 5 0 +
        codeAdvanceMs campaignDelayDefaults (threeDraws 1) 1 := by
  have h := C4_amended 1 campaignDelayDefaults threeDraws [item1, item2] 5 1 (by decide)
  exact ⟨h.1, h.2.2.1 0⟩

/-- Completion re-evaluation does not touch the sent-message log. -/
theorem verify_sent (w : World) (c : Campaign) (n : Int) :
    (verifyAndFinalizeCampaign w c n).1.sent = w.sent := by
  unfold verifyAndFinalizeCampaign updateCampaignRow
  dsimp only
  split <;> rfl

/-- The shipping table after a successful text send: exactly the rows with
the shipping record's id are marked. -/
theorem dispatchSendText_shippings (w : World) (campaign : Campaign)
    (shipping : CampaignShipping) (ctid : Nat) (isC : Bool) (chat : String) (now : Int) :
    (dispatchSendText w campaign shipping ctid isC chat true now).1.shippings =
      w.shippings.map (fun x => if x.id == shipping.id then dispatchMark isC now x else x) := by
  simp [dispatchSendText, verify_shippings, updateShippingRow]

/-- The sent log after a successful text send: exactly one text message is
appended, the confirmation message on a confirmation send and the main
message otherwise. -/
theorem dispatchSendText_sent (w : World) (campaign : Campaign)
    (shipping : CampaignShipping) (ctid : Nat) (isC : Bool) (chat : String) (now : Int) :
    (dispatchSendText w campaign shipping ctid isC chat true now).1.sent =
      w.sent ++ [SentMessage.text chat
        (if isC then shipping.confirmationMessage else shipping.message)] := by
  simp [dispatchSendText, updateShippingRow, verify_sent]

/-- C7 (amended): for a confirmation-enabled campaign, a dispatch with all
externals succeeding marks the shipping record according to
`isConfirm = campaign.confirmation && campaignShipping.confirmation === null`:
while the confirmation response column is still null - in particular on the
first dispatch - it sends the confirmation message and sets
`confirmationRequestedAt`, leaving `deliveredAt` untouched; only once the
response column is non-null does a dispatch send the main message and set
`deliveredAt`; and no single dispatch call sets both fields. -/
theorem C7_amended (w : World) (cid sid ctid : Nat) (now : Int)
    (campaign : Campaign) (s : CampaignShipping)
    (hc : getCampaign w cid = some campaign)
    (hconf : campaign.confirmation = true)
    (hs : w.shippings.find? (fun x => x.id == sid) = some s) :
    ((handleDispatchCampaign w cid sid ctid allOkExt now).1.shippings.find?
        (fun x => x.id == sid) =
      some (dispatchMark (campaign.confirmation && s.confirmation.isNone) now s)) ∧
    (s.confirmation = none →
      dispatchMark (campaign.confirmation && s.confirmation.isNone) now s =
        { s with confirmationRequestedAt := some now } ∧
      ({ s with confirmationRequestedAt := some now } : CampaignShipping).deliveredAt =
        s.deliveredAt ∧
      SentMessage.text (s.number ++ "@s.whatsapp.net") s.confirmationMessage ∈
        (handleDispatchCampaign w cid sid ctid allOkExt now).1.sent) ∧
    (s.confirmation ≠ none →
      dispatchMark (campaign.confirmation && s.confirmation.isNone) now s =
        { s with deliveredAt := some now } ∧
      ({ s with deliveredAt := some now } : CampaignShipping).confirmationRequestedAt =
        s.confirmationRequestedAt ∧
      SentMessage.text (s.number ++ "@s.whatsapp.net") s.message ∈
        (handleDispatchCampaign w cid sid ctid allOkExt now).1.sent) ∧
    (∀ (b : Bool) (x : CampaignShipping),
      (dispatchMark b now x).confirmationRequestedAt = x.confirmationRequestedAt ∨
      (dispatchMark b now x).deliveredAt = x.deliveredAt) := by
  have hsid : s.id = sid := by
    have hp := List.find?_some hs
    simpa using hp
  subst hsid
  have hrun : ∃ w1 : World,
      handleDispatchCampaign w cid s.id ctid allOkExt now =
        dispatchSendText w1 campaign s ctid
          (campaign.confirmation && s.confirmation.isNone)
          (s.number ++ "@s.whatsapp.net") true now ∧
      w1.shippings = w.shippings := by
    by_cases hm : ((campaign.confirmation && s.confirmation.isNone) = false ∧
        campaign.mediaPath.isSome = true)
    · refine ⟨{ w with
          tickets := w.tickets ++ [TicketAction.openedOrFound ctid],
          sent := w.sent ++
            [SentMessage.media (s.number ++ "@s.whatsapp.net") campaign.mediaName] },
        ?_, rfl⟩
      simp only [handleDispatchCampaign, hc, hs]
      rw [if_neg (show ¬ (allOkExt.ticketOk = false) from by decide),
        if_neg (show ¬ (allOkExt.wbotOk = false) from by decide), if_pos hm,
        if_pos (show allOkExt.mediaOptionsNonempty = true from rfl),
        if_pos (show allOkExt.mediaSendOk = true from rfl)]
      rfl
    · refine ⟨{ w with tickets := w.tickets ++ [TicketAction.openedOrFound ctid] }, ?_, rfl⟩
      simp only [handleDispatchCampaign, hc, hs]
      rw [if_neg (show ¬ (allOkExt.ticketOk = false) from by decide),
        if_neg (show ¬ (allOkExt.wbotOk = false) from by decide), if_neg hm]
      rfl
  obtain ⟨w1, hW, hship⟩ := hrun
  have hmark : ∀ a : CampaignShipping,
      ((dispatchMark (campaign.confirmation && s.confirmation.isNone) now a).id == s.id) =
        (a.id == s.id) := by
    intro a
    unfold dispatchMark
    split <;> rfl
  refine ⟨?_, ?_, ?_, ?_⟩
  · rw [hW, dispatchSendText_shippings, hship,
      find?_map_update (fun x => x.id == s.id)
        (dispatchMark (campaign.confirmation && s.confirmation.isNone) now) hmark, hs]
    rfl
  · intro h0
    refine ⟨by simp [dispatchMark, hconf, h0], rfl, ?_⟩
    rw [hW, dispatchSendText_sent]
    simp [hconf, h0]
  · intro h0
    have hisnone : s.confirmation.isNone = false := by
      cases hcc : s.confirmation with
      | none => exact absurd hcc h0
      | some b => rfl
    refine ⟨by simp [dispatchMark, hisnone], rfl, ?_⟩
    rw [hW, dispatchSendText_sent]
    simp [hisnone]
  · intro b x
    cases b
    · exact Or.inl rfl
    · exact Or.inr rfl

/-- C7 witness: the amended statement at the reachable trace state `cw2`
(first dispatch of the confirmation campaign at time 7). -/
theorem C7_amended_witness :
    ((handleDispatchCampaign cw2 2 1 101 allOkExt 7).1.shippings.find? (fun x => x.id == 1) =
      some (dispatchMark (confCampaign.confirmation && cws.confirmation.isNone) 7 cws)) ∧
    SentMessage.text (cws.number ++ "@s.whatsapp.net") cws.confirmationMessage ∈
      (handleDispatchCampaign cw2 2 1 101 allOkExt 7).1.sent := by
  have h := C7_amended cw2 2 1 101 7 confCampaign cws (by decide) rfl (by decide)
  exact ⟨h.1, (h.2.1 rfl).2.2⟩

/-- The assembled shipping payload always keys the record by the shown
contact-list item and the campaign, with the verified contact's number. -/
theorem buildShippingPayload_fields (campaign : Campaign) (contact : VerifiedContact)
    (itemId cid m k : Nat) (p : ShippingPayload)
    (hp : buildShippingPayload campaign contact itemId cid m k = some p) :
    p.contactId = itemId ∧ p.campaignId = cid ∧ p.number = contact.number := by
  have hmsg : ∀ (base q : ShippingPayload),
      buildMessagePart campaign contact base m = some q →
      q.contactId = base.contactId ∧ q.campaignId = base.campaignId ∧
        q.number = base.number := by
    intro base q hq
    unfold buildMessagePart at hq
    split at hq
    · split at hq
      · exact absurd hq (by simp)
      · simp only [Option.some.injEq] at hq
        subst hq
        exact ⟨rfl, rfl, rfl⟩
    · simp only [Option.some.injEq] at hq
      subst hq
      exact ⟨rfl, rfl, rfl⟩
  have hcnf : ∀ (q r : ShippingPayload),
      buildConfirmationPart campaign contact q k = some r →
      r.contactId = q.contactId ∧ r.campaignId = q.campaignId ∧ r.number = q.number := by
    intro q r hr
    unfold buildConfirmationPart at hr
    split at hr
    · split at hr
      · split at hr
        · exact absurd hr (by simp)
        · simp only [Option.some.injEq] at hr
          subst hr
          exact ⟨rfl, rfl, rfl⟩
      · simp only [Option.some.injEq] at hr
        subst hr
        exact ⟨rfl, rfl, rfl⟩
    · simp only [Option.some.injEq] at hr
      subst hr
      exact ⟨rfl, rfl, rfl⟩
  unfold buildShippingPayload at hp
  dsimp only at hp
  split at hp
  · exact absurd hp (by simp)
  · rename_i q hq
    obtain ⟨h1, h2, h3⟩ := hmsg _ q hq
    obtain ⟨g1, g2, g3⟩ := hcnf q p hp
    exact ⟨g1.trans h1, g2.trans h2, g3.trans h3⟩

/-- Rendering reads none of the status fields: a pure status/completion
update does not change the assembled payload. -/
theorem buildShippingPayload_setStatus (st : CampaignStatus) (ca : Option Int)
    (campaign : Campaign) (contact : VerifiedContact) (itemId cid m k : Nat) :
    buildShippingPayload (setStatus st ca campaign) contact itemId cid m k =
      buildShippingPayload campaign contact itemId cid m k := rfl

/-- A campaign found by primary key has that id. -/
theorem getCampaign_id (w : World) (cid : Nat) (c : Campaign)
    (hc : getCampaign w cid = some c) : c.id = cid := by
  unfold getCampaign at hc
  cases hfind : w.campaigns.find? (fun x => x.id == cid) with
  | none => rw [hfind] at hc; exact absurd hc (by simp)
  | some c0 =>
    rw [hfind] at hc
    simp at hc
    have hp := List.find?_some hfind
    subst hc
    simpa using hp

/-- `getCampaign` only reads the campaign table. -/
theorem getCampaign_congr (w w' : World) (cid : Nat) (h : w.campaigns = w'.campaigns) :
    getCampaign w cid = getCampaign w' cid := by
  unfold getCampaign
  rw [h]

/-- `getCampaign` after a status write-through on the same id. -/
theorem getCampaign_setStatus_row (w : World) (cid : Nat) (st : CampaignStatus)
    (ca : Option Int) (campaign : Campaign) (hc : getCampaign w cid = some campaign) :
    getCampaign (updateCampaignRow w cid (setStatus st ca)) cid =
      some (setStatus st ca campaign) := by
  unfold getCampaign at hc ⊢
  unfold updateCampaignRow
  dsimp only
  rw [find?_map_update (fun c => c.id == cid) (setStatus st ca) (fun a => rfl)]
  cases hfind : w.campaigns.find? (fun x => x.id == cid) with
  | none => rw [hfind] at hc; exact absurd hc (by simp)
  | some c0 =>
    rw [hfind] at hc
    simp at hc
    subst hc
    rfl

/-- After a completion re-evaluation the campaign is found either untouched
or finalized. -/
theorem getCampaign_after_verify (w : World) (cid : Nat) (campaign : Campaign) (n : Int)
    (hc : getCampaign w cid = some campaign) :
    getCampaign (verifyAndFinalizeCampaign w campaign n).1 cid = some campaign ∨
    getCampaign (verifyAndFinalizeCampaign w campaign n).1 cid =
      some (setStatus CampaignStatus.FINALIZADA (some n) campaign) := by
  have hid := getCampaign_id w cid campaign hc
  unfold verifyAndFinalizeCampaign
  dsimp only
  by_cases hb : (campaign.contacts.length == deliveredCount w campaign.id) = true
  · right
    rw [if_pos hb]
    have : getCampaign (updateCampaignRow w campaign.id
        (setStatus CampaignStatus.FINALIZADA (some n))) cid =
        some (setStatus CampaignStatus.FINALIZADA (some n) campaign) := by
      rw [hid] at *
      exact getCampaign_setStatus_row w cid CampaignStatus.FINALIZADA (some n) campaign hc
    rw [← this]
    apply getCampaign_congr
    rfl
  · left
    rw [if_neg hb]
    rw [← hc]
    apply getCampaign_congr
    rfl

/-- A pending record's tail never re-raises. -/
theorem finishPending_raised (w : World) (c : Campaign) (r : CampaignShipping)
    (ct : VerifiedContact) (d n : Int) : (finishPending w c r ct d n).2 = false := rfl

/-- The pending tail enqueues exactly one dispatch job, with the next id. -/
theorem finishPending_jobs (w : World) (c : Campaign) (r : CampaignShipping)
    (ct : VerifiedContact) (d n : Int) :
    (finishPending w c r ct d n).1.jobs =
      w.jobs ++ [(w.nextJobId, CampaignJob.dispatchCampaign c.id r.id ct.id d)] := by
  simp [finishPending, verify_jobs, updateShippingRow]

/-- The pending tail only stores the job id on the record's row(s). -/
theorem finishPending_shippings (w : World) (c : Campaign) (r : CampaignShipping)
    (ct : VerifiedContact) (d n : Int) :
    (finishPending w c r ct d n).1.shippings =
      w.shippings.map
        (fun x => if x.id == r.id then { x with jobId := some w.nextJobId } else x) := by
  simp [finishPending, verify_shippings, updateShippingRow]

/-- The pending tail does not touch the contact-list items. -/
theorem finishPending_contactItems (w : World) (c : Campaign) (r : CampaignShipping)
    (ct : VerifiedContact) (d n : Int) :
    (finishPending w c r ct d n).1.contactItems = w.contactItems := by
  simp [finishPending, verify_contactItems, updateShippingRow]

/-- The pending tail consumes one job id. -/
theorem finishPending_nextJobId (w : World) (c : Campaign) (r : CampaignShipping)
    (ct : VerifiedContact) (d n : Int) :
    (finishPending w c r ct d n).1.nextJobId = w.nextJobId + 1 := by
  simp [finishPending, verify_nextJobId, updateShippingRow]

/-- The pending tail consumes no shipping id. -/
theorem finishPending_nextShippingId (w : World) (c : Campaign) (r : CampaignShipping)
    (ct : VerifiedContact) (d n : Int) :
    (finishPending w c r ct d n).1.nextShippingId = w.nextShippingId := by
  simp [finishPending, verify_nextShippingId, updateShippingRow]

/-- After the pending tail the campaign is found untouched or finalized. -/
theorem finishPending_getCampaign (w : World) (r : CampaignShipping)
    (ct : VerifiedContact) (d n : Int) (cid : Nat) (campaign : Campaign)
    (hc : getCampaign w cid = some campaign) :
    getCampaign (finishPending w campaign r ct d n).1 cid = some campaign ∨
    getCampaign (finishPending w campaign r ct d n).1 cid =
      some (setStatus CampaignStatus.FINALIZADA (some n) campaign) := by
  unfold finishPending
  dsimp only
  have hU : getCampaign (updateShippingRow { w with
      jobs := w.jobs ++
        [(w.nextJobId, CampaignJob.dispatchCampaign campaign.id r.id ct.id d)]
      nextJobId := w.nextJobId + 1 } r.id
      (fun x => { x with jobId := some w.nextJobId })) cid = some campaign := by
    rw [← hc]
    apply getCampaign_congr
    rfl
  exact getCampaign_after_verify _ cid campaign n hU

/-- A preparer run that finds no shipping row for the pair reduces to the
pending tail on a freshly created record. -/
theorem prepare_create_eq (w : World) (itemId cid : Nat) (delay : Int) (ext : PrepareExt)
    (now : Int) (campaign : Campaign) (item : ContactListItem) (contact : VerifiedContact)
    (p : ShippingPayload)
    (hc : getCampaign w cid = some campaign)
    (hitem : w.contactItems.find? (fun it => it.id == itemId) = some item)
    (hwb : ext.wbotOk = true)
    (hv : ext.verified = some contact)
    (hp : buildShippingPayload campaign contact item.id cid ext.msgDraw ext.confDraw = some p)
    (hpair : w.shippings.find?
      (fun x => x.campaignId == cid && x.contactId == item.id) = none) :
    handlePrepareContact w itemId cid delay ext now =
      finishPending { w with
          shippings := w.shippings ++ [newShippingRecord w.nextShippingId p none]
          nextShippingId := w.nextShippingId + 1 }
        campaign (newShippingRecord w.nextShippingId p none) contact delay now := by
  have hwb' : (ext.wbotOk = false) = False := by simp [hwb]
  simp only [handlePrepareContact, hc, hitem, hwb', if_false, hv, hp, hpair]

/-- A preparer run that finds a still-pending shipping row reduces to the
pending tail on the refreshed record. -/
theorem prepare_refresh_eq (w : World) (itemId cid : Nat) (delay : Int) (ext : PrepareExt)
    (now : Int) (campaign : Campaign) (item : ContactListItem) (contact : VerifiedContact)
    (p : ShippingPayload) (record0 : CampaignShipping)
    (hc : getCampaign w cid = some campaign)
    (hitem : w.contactItems.find? (fun it => it.id == itemId) = some item)
    (hwb : ext.wbotOk = true)
    (hv : ext.verified = some contact)
    (hp : buildShippingPayload campaign contact item.id cid ext.msgDraw ext.confDraw = some p)
    (hpair : w.shippings.find?
      (fun x => x.campaignId == cid && x.contactId == item.id) = some record0)
    (hpend : record0.deliveredAt = none ∧ record0.confirmationRequestedAt = none) :
    handlePrepareContact w itemId cid delay ext now =
      finishPending (updateShippingRow w record0.id (fun _ => applySet record0 p))
        campaign (applySet record0 p) contact delay now := by
  have hwb' : (ext.wbotOk = false) = False := by simp [hwb]
  have hpd : (record0.deliveredAt.isNone && record0.confirmationRequestedAt.isNone) = true := by
    simp [hpend.1, hpend.2]
  simp only [handlePrepareContact, hc, hitem, hwb', if_false, hv, hp, hpair, hpd, if_true]

/-- Freshly created records carry the draft id. -/
@[simp] theorem newShippingRecord_id (sid : Nat) (p : ShippingPayload) (jid : Option Nat) :
    (newShippingRecord sid p jid).id = sid := rfl

/-- Freshly created records carry the payload's campaign key. -/
@[simp] theorem newShippingRecord_campaignId (sid : Nat) (p : ShippingPayload)
    (jid : Option Nat) : (newShippingRecord sid p jid).campaignId = p.campaignId := rfl

/-- Freshly created records carry the payload's contact key. -/
@[simp] theorem newShippingRecord_contactId (sid : Nat) (p : ShippingPayload)
    (jid : Option Nat) : (newShippingRecord sid p jid).contactId = p.contactId := rfl

/-- Freshly created records are undelivered. -/
@[simp] theorem newShippingRecord_deliveredAt (sid : Nat) (p : ShippingPayload)
    (jid : Option Nat) : (newShippingRecord sid p jid).deliveredAt = none := rfl

/-- Freshly created records are unconfirmed. -/
@[simp] theorem newShippingRecord_confirmationRequestedAt (sid : Nat) (p : ShippingPayload)
    (jid : Option Nat) : (newShippingRecord sid p jid).confirmationRequestedAt = none := rfl

/-- Storing a job id on a fresh record. -/
theorem newShippingRecord_setJob (sid : Nat) (p : ShippingPayload) (jid j2 : Option Nat) :
    { newShippingRecord sid p jid with jobId := j2 } = newShippingRecord sid p j2 := rfl

/-- `record.set` keeps the row id. -/
@[simp] theorem applySet_rowid (r : CampaignShipping) (p : ShippingPayload) :
    (applySet r p).id = r.id := rfl

/-- `record.set` keeps the delivery timestamp. -/
@[simp] theorem applySet_deliveredAt (r : CampaignShipping) (p : ShippingPayload) :
    (applySet r p).deliveredAt = r.deliveredAt := rfl

/-- `record.set` keeps the confirmation-request timestamp. -/
@[simp] theorem applySet_confirmationRequestedAt (r : CampaignShipping) (p : ShippingPayload) :
    (applySet r p).confirmationRequestedAt = r.confirmationRequestedAt := rfl

/-- `record.set` re-writes the campaign key from the payload. -/
@[simp] theorem applySet_campaignId (r : CampaignShipping) (p : ShippingPayload) :
    (applySet r p).campaignId = p.campaignId := rfl

/-- `record.set` re-writes the contact key from the payload. -/
@[simp] theorem applySet_contactId (r : CampaignShipping) (p : ShippingPayload) :
    (applySet r p).contactId = p.contactId := rfl

/-- A conditional row update misses every row with a different id. -/
theorem map_fresh_id (l : List CampaignShipping) (sid : Nat)
    (f : CampaignShipping → CampaignShipping) (hfresh : ∀ x ∈ l, x.id ≠ sid) :
    l.map (fun x => if x.id == sid then f x else x) = l := by
  have h1 : l.map (fun x => if x.id == sid then f x else x) = l.map id :=
    List.map_congr_left (fun x hx => by simp [hfresh x hx])
  simpa using h1

/-- C2 (amended): the preparer's find-or-create keeps the shipping record
unique per `(campaignId, contactId)` pair, and once the record has a
non-null `deliveredAt` or `confirmationRequestedAt` a re-run enqueues no
new dispatch job and changes no rows; but while the record is still
undelivered and unconfirmed, every successful run enqueues one dispatch
job (overwriting the stored `jobId`), so running the preparer twice in
sequence for the same recipient yields one shipping record and two
`DispatchCampaign` jobs for it. -/
theorem C2_amended :
    (∀ (w : World) (itemId cid : Nat) (delay : Int) (ext : PrepareExt) (now : Int)
        (item : ContactListItem) (record : CampaignShipping),
      w.contactItems.find? (fun it => it.id == itemId) = some item →
      w.shippings.find? (fun x => x.campaignId == cid && x.contactId == item.id) =
        some record →
      record.deliveredAt ≠ none ∨ record.confirmationRequestedAt ≠ none →
      (handlePrepareContact w itemId cid delay ext now).1.jobs = w.jobs ∧
      (handlePrepareContact w itemId cid delay ext now).1.shippings = w.shippings) ∧
    (∀ (w : World) (itemId cid : Nat) (d1 d2 : Int) (ext1 ext2 : PrepareExt) (n1 n2 : Int)
        (campaign : Campaign) (item : ContactListItem) (c1 c2 : VerifiedContact)
        (p1 p2 : ShippingPayload),
      getCampaign w cid = some campaign →
      w.contactItems.find? (fun it => it.id == itemId) = some item →
      ext1.wbotOk = true → ext1.verified = some c1 →
      buildShippingPayload campaign c1 item.id cid ext1.msgDraw ext1.confDraw = some p1 →
      ext2.wbotOk = true → ext2.verified = some c2 →
      buildShippingPayload campaign c2 item.id cid ext2.msgDraw ext2.confDraw = some p2 →
      w.shippings.find? (fun x => x.campaignId == cid && x.contactId == item.id) = none →
      (∀ x ∈ w.shippings, x.id ≠ w.nextShippingId) →
      ((handlePrepareContact (handlePrepareContact w itemId cid d1 ext1 n1).1
          itemId cid d2 ext2 n2).1.shippings.filter
            (fun x => x.campaignId == cid && x.contactId == item.id)).length = 1 ∧
      (handlePrepareContact (handlePrepareContact w itemId cid d1 ext1 n1).1
          itemId cid d2 ext2 n2).1.jobs =
        w.jobs ++
          [(w.nextJobId, CampaignJob.dispatchCampaign campaign.id w.nextShippingId c1.id d1),
            (w.nextJobId + 1,
              CampaignJob.dispatchCampaign campaign.id w.nextShippingId c2.id d2)]) := by
  constructor
  · intro w itemId cid delay ext now item record hitem h1 h2
    have hguard : (record.deliveredAt.isNone && record.confirmationRequestedAt.isNone) = false := by
      rcases h2 with h | h
      · cases hd : record.deliveredAt with
        | none => exact absurd hd h
        | some v => simp [hd]
      · cases hd : record.confirmationRequestedAt with
        | none => exact absurd hd h
        | some v => simp [hd]
    cases hgc : getCampaign w cid with
    | none => simp [handlePrepareContact, hgc]
    | some campaign =>
      cases hwb : ext.wbotOk with
      | false =>
        simp [handlePrepareContact, hgc, hitem, hwb, prepareCatch, updateCampaignRow]
      | true =>
        cases hv : ext.verified with
        | none =>
          simp [handlePrepareContact, hgc, hitem, hwb, hv, prepareCatch, updateCampaignRow]
        | some contact =>
          cases hbp : buildShippingPayload campaign contact item.id cid
              ext.msgDraw ext.confDraw with
          | none =>
            simp [handlePrepareContact, hgc, hitem, hwb, hv, hbp, prepareCatch,
              updateCampaignRow]
          | some p =>
            simp [handlePrepareContact, hgc, hitem, hwb, hv, hbp, h1, hguard,
              verify_jobs, verify_shippings]
  · intro w itemId cid d1 d2 ext1 ext2 n1 n2 campaign item c1 c2 p1 p2 hc hitem
      hwb1 hv1 hp1 hwb2 hv2 hp2 hpair hfresh
    obtain ⟨hpc1, hpg1, hpn1⟩ :=
      buildShippingPayload_fields campaign c1 item.id cid ext1.msgDraw ext1.confDraw p1 hp1
    obtain ⟨hpc2, hpg2, hpn2⟩ :=
      buildShippingPayload_fields campaign c2 item.id cid ext2.msgDraw ext2.confDraw p2 hp2
    have hrun1 := prepare_create_eq w itemId cid d1 ext1 n1 campaign item c1 p1
      hc hitem hwb1 hv1 hp1 hpair
    have hship1 : (handlePrepareContact w itemId cid d1 ext1 n1).1.shippings =
        w.shippings ++ [newShippingRecord w.nextShippingId p1 (some w.nextJobId)] := by
      rw [hrun1, finishPending_shippings]
      show (w.shippings ++ [newShippingRecord w.nextShippingId p1 none]).map _ = _
      rw [List.map_append]
      simp only [newShippingRecord_id, List.map_cons, List.map_nil, beq_self_eq_true,
        if_true]
      rw [map_fresh_id w.shippings w.nextShippingId _ hfresh]
      rfl
    have hjobs1 : (handlePrepareContact w itemId cid d1 ext1 n1).1.jobs =
        w.jobs ++ [(w.nextJobId,
          CampaignJob.dispatchCampaign campaign.id w.nextShippingId c1.id d1)] := by
      rw [hrun1, finishPending_jobs]
      rfl
    have hitems1 : (handlePrepareContact w itemId cid d1 ext1 n1).1.contactItems =
        w.contactItems := by
      rw [hrun1, finishPending_contactItems]
    have hjid1 : (handlePrepareContact w itemId cid d1 ext1 n1).1.nextJobId =
        w.nextJobId + 1 := by
      rw [hrun1, finishPending_nextJobId]
    have hgc1 := finishPending_getCampaign
      { w with
        shippings := w.shippings ++ [newShippingRecord w.nextShippingId p1 none]
        nextShippingId := w.nextShippingId + 1 }
      (newShippingRecord w.nextShippingId p1 none) c1 d1 n1 cid campaign
      (by rw [← hc]; exact getCampaign_congr _ _ _ rfl)
    rw [← hrun1] at hgc1
    have hitem2 : (handlePrepareContact w itemId cid d1 ext1 n1).1.contactItems.find?
        (fun it => it.id == itemId) = some item := by
      rw [hitems1]; exact hitem
    have hpair2 : (handlePrepareContact w itemId cid d1 ext1 n1).1.shippings.find?
        (fun x => x.campaignId == cid && x.contactId == item.id) =
        some (newShippingRecord w.nextShippingId p1 (some w.nextJobId)) := by
      rw [hship1, List.find?_append, hpair]
      simp [List.find?, hpc1, hpg1]
    obtain ⟨campaign2, hgc2, hid2, hbuild2⟩ :
        ∃ cx : Campaign,
          getCampaign (handlePrepareContact w itemId cid d1 ext1 n1).1 cid = some cx ∧
          cx.id = campaign.id ∧
          buildShippingPayload cx c2 item.id cid ext2.msgDraw ext2.confDraw = some p2 := by
      rcases hgc1 with h | h
      · exact ⟨campaign, h, rfl, hp2⟩
      · exact ⟨setStatus CampaignStatus.FINALIZADA (some n1) campaign, h, rfl,
          by rw [buildShippingPayload_setStatus]; exact hp2⟩
    have hrun2 := prepare_refresh_eq (handlePrepareContact w itemId cid d1 ext1 n1).1
      itemId cid d2 ext2 n2 campaign2 item c2 p2
      (newShippingRecord w.nextShippingId p1 (some w.nextJobId))
      hgc2 hitem2 hwb2 hv2 hbuild2 hpair2 ⟨rfl, rfl⟩
    constructor
    · rw [hrun2, finishPending_shippings]
      rw [show (updateShippingRow (handlePrepareContact w itemId cid d1 ext1 n1).1
          (newShippingRecord w.nextShippingId p1 (some w.nextJobId)).id
          (fun _ => applySet (newShippingRecord w.nextShippingId p1 (some w.nextJobId)) p2)).shippings =
        (handlePrepareContact w itemId cid d1 ext1 n1).1.shippings.map
          (fun x => if x.id == w.nextShippingId then
            applySet (newShippingRecord w.nextShippingId p1 (some w.nextJobId)) p2 else x)
        from rfl]
      rw [hship1, List.map_append, map_fresh_id w.shippings w.nextShippingId _ hfresh]
      simp only [List.map_cons, List.map_nil, newShippingRecord_id, beq_self_eq_true, if_true]
      simp only [applySet_rowid, newShippingRecord_id]
      rw [List.map_append, map_fresh_id w.shippings w.nextShippingId _ hfresh]
      simp only [List.map_cons, List.map_nil, applySet_rowid, newShippingRecord_id,
        beq_self_eq_true, if_true]
      rw [List.filter_append]
      have hleft : w.shippings.filter
          (fun x => x.campaignId == cid && x.contactId == item.id) = [] := by
        rw [List.filter_eq_nil_iff]
        intro a ha
        have := List.find?_eq_none.mp hpair a ha
        simpa using this
      rw [hleft]
      simp [applySet_rowid, newShippingRecord_id, hpc2, hpg2]
    · rw [hrun2, finishPending_jobs]
      have hjobseq : (updateShippingRow (handlePrepareContact w itemId cid d1 ext1 n1).1
          (newShippingRecord w.nextShippingId p1 (some w.nextJobId)).id
          (fun _ => applySet (newShippingRecord w.nextShippingId p1 (some w.nextJobId)) p2)).jobs =
          (handlePrepareContact w itemId cid d1 ext1 n1).1.jobs := rfl
      have hjideq : (updateShippingRow (handlePrepareContact w itemId cid d1 ext1 n1).1
          (newShippingRecord w.nextShippingId p1 (some w.nextJobId)).id
          (fun _ => applySet (newShippingRecord w.nextShippingId p1 (some w.nextJobId)) p2)).nextJobId =
          (handlePrepareContact w itemId cid d1 ext1 n1).1.nextJobId := rfl
      rw [hjobseq, hjideq, hjobs1, hjid1, hid2]
      simp [applySet_rowid, newShippingRecord_id]

/-- C2 witness: the guard part on a world whose record is already
delivered, and the two-run part on the clean trace world `w0`. -/
theorem C2_amended_witness :
    ((handlePrepareContact dw 1 1 0 okPrepExt1 30).1.jobs = dw.jobs ∧
      (handlePrepareContact dw 1 1 0 okPrepExt1 30).1.shippings = dw.shippings) ∧
    ((handlePrepareContact (handlePrepareContact w0 1 1 0 okPrepExt1 10).1
        1 1 0 okPrepExt1 11).1.shippings.filter
          (fun x => x.campaignId == 1 && x.contactId == item1.id)).length = 1 ∧
    (handlePrepareContact (handlePrepareContact w0 1 1 0 okPrepExt1 10).1
        1 1 0 okPrepExt1 11).1.jobs =
      w0.jobs ++
        [(w0.nextJobId,
          CampaignJob.dispatchCampaign baseCampaign.id w0.nextShippingId vc1.id 0),
          (w0.nextJobId + 1,
            CampaignJob.dispatchCampaign baseCampaign.id w0.nextShippingId vc1.id 0)] := by
  refine ⟨C2_amended.1 dw 1 1 0 okPrepExt1 30 item1 dwShipping (by decide) (by decide)
    (Or.inl (by decide)), ?_, ?_⟩
  · exact (C2_amended.2 w0 1 1 0 0 okPrepExt1 okPrepExt1 10 11 baseCampaign item1 vc1 vc1
      p0 p0 (by decide) (by decide) rfl rfl (by decide) rfl rfl (by decide) (by decide)
      (by decide)).1
  · exact (C2_amended.2 w0 1 1 0 0 okPrepExt1 okPrepExt1 10 11 baseCampaign item1 vc1 vc1
      p0 p0 (by decide) (by decide) rfl rfl (by decide) rfl rfl (by decide) (by decide)
      (by decide)).2
